import Mathlib

/-!
Shallow embedding of the chat-to-BI Flask application (src/app.py).

The application's core logic is:
  - get_data (app.py lines 126-178): merges five loaded CSV tables with a
    chain of pandas left joins and coerces every column whose name contains
    the substring "Data" to datetime (failures become null).
  - gerar_grafico_plotly (lines 181-302): interprets a semi-structured chart
    plan over the joined table: filters, grouping, aggregation, chart build;
    every internal exception is caught and turned into a None result.
  - extrair_json (lines 113-124): extracts the first-brace..last-brace span
    of a text and parses it as JSON, returning None on any failure.
  - the /ask route ask_gemini (lines 362-423): drives the above and keeps a
    bounded conversation history (at most 3 turns, oldest evicted).

DataFrames are modelled as a list of column labels plus a list of rows,
each row an association list from column label to cell value.  Cell values
live in an inductive `Value` type (pandas NaN/NaT/None are all `Value.null`;
datetimes are integer date codes produced by `parseDate`).  Plans and model
responses are modelled by an inductive `Json` type; floating-point JSON
numbers are outside the model (no claim depends on them).  Every Python
exception inside a caught region is modelled as `Option.none`.
-/

/-- JSON values as decoded by Python's json module, with numeric literals
restricted to integers (floating-point payloads are outside the model). -/
inductive Json where
  | null : Json
  | b (x : Bool) : Json
  | i (n : Int) : Json
  | s (str : String) : Json
  | arr (elems : List Json) : Json
  | obj (entries : List (String × Json)) : Json
deriving Repr

mutual

/-- Decidable equality on JSON values (hand-rolled: the nested inductive is
not covered by deriving). -/
def Json.decEq : (a b : Json) → Decidable (a = b)
  | .null, .null => isTrue rfl
  | .b x, .b y =>
    if h : x = y then isTrue (by rw [h]) else isFalse (fun hh => by cases hh; exact h rfl)
  | .i m, .i n =>
    if h : m = n then isTrue (by rw [h]) else isFalse (fun hh => by cases hh; exact h rfl)
  | .s u, .s v =>
    if h : u = v then isTrue (by rw [h]) else isFalse (fun hh => by cases hh; exact h rfl)
  | .arr xs, .arr ys =>
    match Json.decEqArr xs ys with
    | isTrue h => isTrue (by rw [h])
    | isFalse h => isFalse (fun hh => by cases hh; exact h rfl)
  | .obj xs, .obj ys =>
    match Json.decEqObj xs ys with
    | isTrue h => isTrue (by rw [h])
    | isFalse h => isFalse (fun hh => by cases hh; exact h rfl)
  | .null, .b _ => isFalse (fun hh => nomatch hh)
  | .null, .i _ => isFalse (fun hh => nomatch hh)
  | .null, .s _ => isFalse (fun hh => nomatch hh)
  | .null, .arr _ => isFalse (fun hh => nomatch hh)
  | .null, .obj _ => isFalse (fun hh => nomatch hh)
  | .b _, .null => isFalse (fun hh => nomatch hh)
  | .b _, .i _ => isFalse (fun hh => nomatch hh)
  | .b _, .s _ => isFalse (fun hh => nomatch hh)
  | .b _, .arr _ => isFalse (fun hh => nomatch hh)
  | .b _, .obj _ => isFalse (fun hh => nomatch hh)
  | .i _, .null => isFalse (fun hh => nomatch hh)
  | .i _, .b _ => isFalse (fun hh => nomatch hh)
  | .i _, .s _ => isFalse (fun hh => nomatch hh)
  | .i _, .arr _ => isFalse (fun hh => nomatch hh)
  | .i _, .obj _ => isFalse (fun hh => nomatch hh)
  | .s _, .null => isFalse (fun hh => nomatch hh)
  | .s _, .b _ => isFalse (fun hh => nomatch hh)
  | .s _, .i _ => isFalse (fun hh => nomatch hh)
  | .s _, .arr _ => isFalse (fun hh => nomatch hh)
  | .s _, .obj _ => isFalse (fun hh => nomatch hh)
  | .arr _, .null => isFalse (fun hh => nomatch hh)
  | .arr _, .b _ => isFalse (fun hh => nomatch hh)
  | .arr _, .i _ => isFalse (fun hh => nomatch hh)
  | .arr _, .s _ => isFalse (fun hh => nomatch hh)
  | .arr _, .obj _ => isFalse (fun hh => nomatch hh)
  | .obj _, .null => isFalse (fun hh => nomatch hh)
  | .obj _, .b _ => isFalse (fun hh => nomatch hh)
  | .obj _, .i _ => isFalse (fun hh => nomatch hh)
  | .obj _, .s _ => isFalse (fun hh => nomatch hh)
  | .obj _, .arr _ => isFalse (fun hh => nomatch hh)

/-- Decidable equality on JSON arrays. -/
def Json.decEqArr : (a b : List Json) → Decidable (a = b)
  | [], [] => isTrue rfl
  | [], _ :: _ => isFalse (fun hh => nomatch hh)
  | _ :: _, [] => isFalse (fun hh => nomatch hh)
  | x :: xs, y :: ys =>
    match Json.decEq x y with
    | isFalse h => isFalse (fun hh => by cases hh; exact h rfl)
    | isTrue h1 =>
      match Json.decEqArr xs ys with
      | isTrue h2 => isTrue (by rw [h1, h2])
      | isFalse h2 => isFalse (fun hh => by cases hh; exact h2 rfl)

/-- Decidable equality on JSON object entry lists. -/
def Json.decEqObj : (a b : List (String × Json)) → Decidable (a = b)
  | [], [] => isTrue rfl
  | [], _ :: _ => isFalse (fun hh => nomatch hh)
  | _ :: _, [] => isFalse (fun hh => nomatch hh)
  | (k, v) :: xs, (k', v') :: ys =>
    if hk : k = k' then
      match Json.decEq v v' with
      | isFalse h => isFalse (fun hh => by cases hh; exact h rfl)
      | isTrue h1 =>
        match Json.decEqObj xs ys with
        | isTrue h2 => isTrue (by rw [hk, h1, h2])
        | isFalse h2 => isFalse (fun hh => by cases hh; exact h2 rfl)
    else isFalse (fun hh => by cases hh; exact hk rfl)

end

instance : DecidableEq Json := Json.decEq

/-- Python truthiness of a decoded JSON value: None, False, 0, empty string,
empty list and empty dict are falsy, everything else truthy. -/
def Json.truthy : Json → Bool
  | .null => false
  | .b x => x
  | .i n => n != 0
  | .s str => str != ""
  | .arr elems => !elems.isEmpty
  | .obj entries => !entries.isEmpty

/-- Association-list lookup on a JSON object's entries. -/
def jLookup (k : String) : List (String × Json) → Option Json
  | [] => none
  | (k', v) :: rest => if k' = k then some v else jLookup k rest

/-- Python dict.get(k) on a JSON value: None default when the key is absent,
failure (exception) when the value is not a dict at all. -/
def jGetOpt (j : Json) (k : String) : Option Json :=
  match j with
  | .obj entries => some ((jLookup k entries).getD Json.null)
  | _ => none

/-- Python dict.get(k, d) with an explicit default; failure when the value
is not a dict. -/
def jGetD2 (j : Json) (k : String) (d : Json) : Option Json :=
  match j with
  | .obj entries => some ((jLookup k entries).getD d)
  | _ => none

/-- Total dict.get(k) used in positions where the receiver is already known
to be a dict; non-dict receivers give null. -/
def jGetD (j : Json) (k : String) : Json :=
  match j with
  | .obj entries => (jLookup k entries).getD Json.null
  | _ => Json.null

/-- Python indexing f[k]: raises (none) when the key is absent or the value
is not a dict. -/
def jIndex (j : Json) (k : String) : Option Json :=
  match j with
  | .obj entries => jLookup k entries
  | _ => none

/-- Cell values of the joined table.  `null` stands for pandas NaN/NaT/None;
`date` carries the integer date code produced by `parseDate`. -/
inductive Value where
  | null : Value
  | bool (x : Bool) : Value
  | int (n : Int) : Value
  | date (d : Nat) : Value
  | str (st : String) : Value
deriving Repr, DecidableEq

/-- Type tag used to order heterogeneous values. -/
def Value.tag : Value → Nat
  | .null => 0
  | .bool _ => 1
  | .int _ => 2
  | .date _ => 3
  | .str _ => 4

/-- Lexicographic order on character lists by code point, the comparison
Python applies to strings. -/
def charListLe : List Char → List Char → Bool
  | [], _ => true
  | _ :: _, [] => false
  | c :: cs, d :: ds =>
    if c.toNat = d.toNat then charListLe cs ds else decide (c.toNat < d.toNat)

/-- Strict lexicographic order on character lists by code point. -/
def charListLt : List Char → List Char → Bool
  | [], [] => false
  | [], _ :: _ => true
  | _ :: _, [] => false
  | c :: cs, d :: ds =>
    if c.toNat = d.toNat then charListLt cs ds else decide (c.toNat < d.toNat)

/-- Lexicographic string order by code point. -/
def strLeB (u v : String) : Bool :=
  charListLe u.toList v.toList

/-- Strict lexicographic string order by code point. -/
def strLtB (u v : String) : Bool :=
  charListLt u.toList v.toList

/-- Total comparison on cell values: same-type values compare by payload,
different types by type tag.  pandas raises on genuinely mixed-type
comparisons; the columns the program sorts are homogeneous, where this
order coincides with the pandas one. -/
def Value.leB (a b : Value) : Bool :=
  match a, b with
  | .int m, .int n => decide (m ≤ n)
  | .date m, .date n => decide (m ≤ n)
  | .str u, .str v => strLeB u v
  | .bool x, .bool y => !x || y
  | a, b => decide (a.tag ≤ b.tag)

/-- A scalar JSON payload converted to a cell value; lists and dicts are not
valid scalars (pandas raises on them, e.g. unhashable in isin). -/
def jsonScalar : Json → Option Value
  | .null => some Value.null
  | .b x => some (Value.bool x)
  | .i n => some (Value.int n)
  | .s st => some (Value.str st)
  | _ => none

/-- A table row: association list from column label to cell value. -/
abbrev Row : Type := List (String × Value)

/-- Cell access df[col] for one row; a missing label reads as null. -/
def rowGet (r : Row) (c : String) : Value :=
  match r with
  | [] => Value.null
  | (k, v) :: rest => if k = c then v else rowGet rest c

/-- Column assignment df[col] = v for one row: replaces the first binding of
the label, or appends a new one. -/
def rowSet (r : Row) (c : String) (v : Value) : Row :=
  match r with
  | [] => [(c, v)]
  | (k, w) :: rest => if k = c then (c, v) :: rest else (k, w) :: rowSet rest c v

/-- DataFrame.rename for one row: rewrites a column label. -/
def renameRowKey (old new : String) (r : Row) : Row :=
  r.map (fun kv => (if kv.1 = old then new else kv.1, kv.2))

/-- A pandas DataFrame: ordered column labels and ordered rows. -/
structure DataFrame where
  cols : List String
  rows : List Row
deriving Repr, DecidableEq

/-- Substring test: Python's "needle in haystack" on strings. -/
def subOf (needle : List Char) : List Char → Bool
  | [] => needle.isEmpty
  | c :: t => needle.isPrefixOf (c :: t) || subOf needle t

/-- Python "needle in haystack" for strings. -/
def strContains (hay needle : String) : Bool :=
  subOf needle.toList hay.toList

/-- Parse the leading run of digits. -/
def takeDigits (cs : List Char) : List Char × List Char :=
  cs.span (fun c => c.isDigit)

/-- Digits to a natural number (the code of the zero digit is 48). -/
def digitsToNat (ds : List Char) : Nat :=
  ds.foldl (fun acc c => 10 * acc + (c.toNat - 48)) 0

/-- Date parsing as performed by pd.to_datetime on strings: the model covers
ISO-style "YYYY-MM-DD" and "YYYY-MM" inputs, mapped to the integer code
y*10000 + m*100 + d, which is ordered like the calendar.  Other string
shapes (handled permissively by pandas) are outside the model and parse to
none. -/
def parseDate (st : String) : Option Nat :=
  match takeDigits st.toList with
  | (y, '-' :: rest1) =>
    if y.isEmpty then none
    else
      match takeDigits rest1 with
      | (m, []) =>
        if m.isEmpty then none else some (digitsToNat y * 10000 + digitsToNat m * 100 + 1)
      | (m, '-' :: rest2) =>
        if m.isEmpty then none
        else
          match takeDigits rest2 with
          | (d, []) =>
            if d.isEmpty then none
            else some (digitsToNat y * 10000 + digitsToNat m * 100 + digitsToNat d)
          | _ => none
      | _ => none
  | _ => none

/-- pd.to_datetime(v, errors=coerce) on a single cell: dates stay, strings
are parsed (failures become null), integers are epoch-like and stay ordered
(modelled as a date code), everything else becomes null. -/
def toDatetimeCoerce : Value → Value
  | .date d => Value.date d
  | .str st =>
    match parseDate st with
    | some d => Value.date d
    | none => Value.null
  | .int n => Value.date n.toNat
  | _ => Value.null

/-- pd.to_datetime(v) with default errors=raise on a JSON scalar from the
plan: strings must parse, integers are epoch-like codes, anything else
raises (none).  A null bound would give NaT, whose comparisons are all
False; the overall chart result is then none either way, matching the
none produced here. -/
def toDatetimeStrict : Json → Option Nat
  | .s st => parseDate st
  | .i n => some n.toNat
  | _ => none

/-- Year-month bucket of a date code, as produced by dt.to_period(M) and
astype(str): "YYYY-MM" with a zero-padded month. -/
def yearMonthStr (d : Nat) : String :=
  let y := d / 10000
  let m := d / 100 % 100
  toString y ++ "-" ++ (if m < 10 then "0" ++ toString m else toString m)

/-- DataFrame.rename(columns = {old: new}). -/
def renameColumn (df : DataFrame) (old new : String) : DataFrame :=
  ⟨df.cols.map (fun c => if c = old then new else c), df.rows.map (renameRowKey old new)⟩

/-- The non-key column labels shared by both merge operands, which receive
the collision suffixes. -/
def mergeOverlap (l r : DataFrame) (k : String) : List String :=
  l.cols.filter (fun c => decide (c ∈ r.cols) && decide (c ≠ k))

/-- The left operand's contribution to a merged row: its cells, with
colliding labels suffixed. -/
def mergeRenameLeft (l r : DataFrame) (k s1 : String) (lr : Row) : Row :=
  lr.map (fun kv => (if kv.1 ∈ mergeOverlap l r k then kv.1 ++ s1 else kv.1, kv.2))

/-- The merged row for a left row with a matching right row. -/
def mergeJoinRow (l r : DataFrame) (k s1 s2 : String) (lr rr : Row) : Row :=
  mergeRenameLeft l r k s1 lr
    ++ (rr.filter (fun kv => decide (kv.1 ≠ k))).map
        (fun kv => (if kv.1 ∈ mergeOverlap l r k then kv.1 ++ s2 else kv.1, kv.2))

/-- The merged row for a left row with no matching right row: every non-key
column of the right table is filled with null. -/
def mergePadRow (l r : DataFrame) (k s1 s2 : String) (lr : Row) : Row :=
  mergeRenameLeft l r k s1 lr
    ++ (r.cols.filter (fun c => decide (c ≠ k))).map
        (fun c => (if c ∈ mergeOverlap l r k then c ++ s2 else c, Value.null))

/-- Left-merge of two tables on key column k with collision suffixes, as in
df_left.merge(df_right, on=k, how=left, suffixes=(s1, s2)): every left row
appears once per matching right row, or once padded with nulls when no
right row matches; the key column is kept once; colliding non-key labels
get the suffixes.  Null keys match null keys, as in pandas. -/
def mergeLeft (l r : DataFrame) (k : String) (s1 s2 : String) : DataFrame :=
  ⟨l.cols.map (fun c => if c ∈ mergeOverlap l r k then c ++ s1 else c)
     ++ (r.cols.filter (fun c => decide (c ≠ k))).map
         (fun c => if c ∈ mergeOverlap l r k then c ++ s2 else c),
   l.rows.flatMap (fun lr =>
     let ms := r.rows.filter (fun rr => rowGet rr k = rowGet lr k)
     if ms.isEmpty then [mergePadRow l r k s1 s2 lr]
     else ms.map (mergeJoinRow l r k s1 s2 lr))⟩

/-- Pure core of get_data (app.py lines 159-171), given the five loaded
tables: the classification key column is renamed, the movements table is
left-merged with accounts, clients, classification and partners in that
order, and every column whose label contains "Data" is coerced cell-wise
to datetime with failures becoming null.  Download, caching and the None
results of the surrounding try/except are not modelled. -/
def get_data (parceiros clientes contas movimentos classificacao : DataFrame) : DataFrame :=
  let df_class := renameColumn classificacao "Data_Ultimo_Movimento" "Data_Movimento"
  let m1 := mergeLeft movimentos contas "ID_Conta" "_x" "_y"
  let m2 := mergeLeft m1 clientes "ID_Cliente" "_x" "_y"
  let m3 := mergeLeft m2 df_class "ID_Conta" "_mov" "_class"
  let m4 := mergeLeft m3 parceiros "ID_Parceiro" "_x" "_y"
  ⟨m4.cols,
   m4.rows.map (fun row =>
     row.map (fun kv => (kv.1, if strContains kv.1 "Data" then toDatetimeCoerce kv.2 else kv.2)))⟩

/-- A JSON value required to be a string (column labels, function names);
anything else leads to a KeyError/TypeError at the pandas call site. -/
def asStr : Json → Option String
  | .s st => some st
  | _ => none

/-- Python's "a or b": a when truthy, otherwise b. -/
def pyOr (a b : Json) : Json :=
  if a.truthy then a else b

/-- Operator resolution of a filter entry (app.py line 197):
f.get(operator) or f.get(condition). -/
def resolveFilterOperator (f : Json) : Json :=
  pyOr (jGetD f "operator") (jGetD f "condition")

/-- Value resolution of a filter entry (app.py line 198):
f.get(value) or f.get(values). -/
def resolveFilterValue (f : Json) : Json :=
  pyOr (jGetD f "value") (jGetD f "values")

/-- Column-wise pd.to_datetime(df[c], errors=coerce) (app.py lines 204-205);
a missing column raises (none).  The source skips the coercion when the
column already has datetime dtype, which is cell-wise the identity, so the
coercion is applied unconditionally here. -/
def coerceColumn (df : DataFrame) (c : String) : Option DataFrame :=
  if c ∈ df.cols then
    some ⟨df.cols,
      df.rows.map (fun r =>
        r.map (fun kv => (kv.1, if kv.1 = c then toDatetimeCoerce kv.2 else kv.2)))⟩
  else none

/-- Series.between(lo, hi) on one cell against datetime bounds: inclusive on
both endpoints, false at NaT, raising (none) when the cell is not a
datetime-comparable value. -/
def betweenB (v : Value) (lo hi : Nat) : Option Bool :=
  match v with
  | .date d => some (decide (lo ≤ d) && decide (d ≤ hi))
  | .null => some false
  | _ => none

/-- Same-type order comparison of two cells; mixed types raise (none). -/
def valOrdLe (a b : Value) : Option Bool :=
  match a, b with
  | .int m, .int n => some (decide (m ≤ n))
  | .date m, .date n => some (decide (m ≤ n))
  | .str u, .str v => some (strLeB u v)
  | .bool x, .bool y => some (!x || y)
  | _, _ => none

/-- Same-type strict order comparison of two cells; mixed types raise. -/
def valOrdLt (a b : Value) : Option Bool :=
  match a, b with
  | .int m, .int n => some (decide (m < n))
  | .date m, .date n => some (decide (m < n))
  | .str u, .str v => some (strLtB u v)
  | .bool x, .bool y => some (!x && y)
  | _, _ => none

/-- Equality as evaluated by df.query: null (NaN) compares unequal to
everything including itself, and values of different types are unequal. -/
def cmpEq (a b : Value) : Bool :=
  match a, b with
  | .null, _ => false
  | _, .null => false
  | a, b => decide (a = b)

/-- One generic comparison of df.query(col op value) (app.py line 214) on a
single cell: the six comparison operators are supported; null operands make
order comparisons false; any other operator text is a query syntax error
(none). -/
def cmpValues (op : String) (a b : Value) : Option Bool :=
  match op with
  | "==" => some (cmpEq a b)
  | "!=" => some (!cmpEq a b)
  | "<" => if a = Value.null || b = Value.null then some false else valOrdLt a b
  | "<=" => if a = Value.null || b = Value.null then some false else valOrdLe a b
  | ">" => if a = Value.null || b = Value.null then some false else valOrdLt b a
  | ">=" => if a = Value.null || b = Value.null then some false else valOrdLe b a
  | _ => none

/-- List filtering by a fallible predicate: any raising cell aborts. -/
def filterOpt {α : Type} (p : α → Option Bool) : List α → Option (List α)
  | [] => some []
  | a :: rest => do
    let keep ← p a
    let tail ← filterOpt p rest
    pure (if keep then a :: tail else tail)

/-- One iteration of the filter loop of gerar_grafico_plotly (app.py lines
194-214): column indexing, operator/value alias resolution, skip on a
missing operator, date coercion for "Data" columns, then the between / in /
generic-query branches. -/
def applyOneFilter (df0 : DataFrame) (f : Json) : Option DataFrame := do
  let columnJ ← jIndex f "column"
  let operator := resolveFilterOperator f
  let value := resolveFilterValue f
  if !operator.truthy then pure df0
  else do
    let column ← asStr columnJ
    let df ← if strContains column "Data" then coerceColumn df0 column else pure df0
    match operator, value with
    | Json.s "between", Json.arr [a, b] => do
      let lo ← toDatetimeStrict a
      let hi ← toDatetimeStrict b
      if column ∈ df.cols then do
        let rows ← filterOpt (fun r => betweenB (rowGet r column) lo hi) df.rows
        pure ⟨df.cols, rows⟩
      else none
    | Json.s "in", Json.arr xs => do
      let vs ← xs.mapM jsonScalar
      if column ∈ df.cols then
        pure ⟨df.cols, df.rows.filter (fun r => decide (rowGet r column ∈ vs))⟩
      else none
    | op, v => do
      let opStr ← asStr op
      let w ← jsonScalar v
      if column ∈ df.cols then do
        let rows ← filterOpt (fun r => cmpValues opStr (rowGet r column) w) df.rows
        pure ⟨df.cols, rows⟩
      else none

/-- The filter loop over all filter entries. -/
def applyFilters (filters : List Json) (df : DataFrame) : Option DataFrame :=
  filters.foldlM applyOneFilter df

/-- The value of transformation.get(filters, []) as an iterable: a list
yields its elements; an empty string or empty dict iterates zero times; a
nonempty string or dict yields characters or keys, on which the loop body
unconditionally raises, and other values are not iterable at all, so both
collapse to none. -/
def asIterList : Json → Option (List Json)
  | .arr xs => some xs
  | .s st => if st = "" then some [] else none
  | .obj entries => if entries.isEmpty then some [] else none
  | _ => none

/-- First-occurrence deduplication, with the already-seen accumulator. -/
def dedupFirstAux {α : Type} [DecidableEq α] (seen : List α) : List α → List α
  | [] => []
  | a :: l => if a ∈ seen then dedupFirstAux seen l else a :: dedupFirstAux (a :: seen) l

/-- Python list(set(xs)) modelled as first-occurrence deduplication (the set
iteration order is arbitrary; only the resulting column-set matters to the
groupby and no proved property depends on the key-column order). -/
def dedupFirst {α : Type} [DecidableEq α] (l : List α) : List α :=
  dedupFirstAux [] l

/-- Aggregation-descriptor normalization (app.py lines 222-226): a
single-entry dict gives its (key, value) pair; any other dict resolves the
explicit column / function fields; non-dict descriptors raise at .get. -/
def resolveAgg : Json → Option (Json × Json)
  | .obj [(k, v)] => some (Json.s k, v)
  | .obj entries => some (jGetD (Json.obj entries) "column", jGetD (Json.obj entries) "function")
  | _ => none

/-- Sum of integer cells; any non-integer cell raises (none). -/
def sumInts : List Value → Option Int
  | [] => some 0
  | .int n :: rest => (sumInts rest).map (fun acc => n + acc)
  | _ => none

/-- Minimum of a homogeneous list of cells under the same-type order. -/
def minVal : List Value → Option Value
  | [] => some Value.null
  | v :: rest => rest.foldlM (fun acc w => (valOrdLe acc w).map (fun le => if le then acc else w)) v

/-- Maximum of a homogeneous list of cells under the same-type order. -/
def maxVal : List Value → Option Value
  | [] => some Value.null
  | v :: rest => rest.foldlM (fun acc w => (valOrdLe acc w).map (fun le => if le then w else acc)) v

/-- Named aggregation function applied to the cells of one group, skipping
nulls as pandas does: sum (integer columns), count, min and max are
modelled exactly; mean and other float-valued aggregations produce
floating-point results outside the value domain of this model, and unknown
names raise, both giving none. -/
def applyAggFunc (fn : String) (vs : List Value) : Option Value :=
  let nonNull := vs.filter (fun v => decide (v ≠ Value.null))
  match fn with
  | "sum" => (sumInts nonNull).map Value.int
  | "count" => some (Value.int nonNull.length)
  | "min" => minVal nonNull
  | "max" => maxVal nonNull
  | _ => none

/-- df.groupby(keys).agg({aggCol: aggFunc}).reset_index() (app.py line 235):
rows with a null in any key column are dropped (groupby dropna), one output
row per distinct key combination carrying the key cells and the aggregated
cell; missing key or aggregation columns raise.  Groups are listed in
first-occurrence order (pandas sorts them by key; the bar path re-sorts the
result and no proved property depends on the group order). -/
def groupbyAgg (df : DataFrame) (keys : List String) (aggCol aggFunc : String) :
    Option DataFrame :=
  if keys.all (fun k => decide (k ∈ df.cols)) && decide (aggCol ∈ df.cols) then do
    let valid := df.rows.filter (fun r => keys.all (fun k => decide (rowGet r k ≠ Value.null)))
    let keyOf := fun (r : Row) => keys.map (rowGet r)
    let groups := dedupFirst (valid.map keyOf)
    let rows ← groups.mapM (fun kv => do
      let grp := valid.filter (fun r => decide (keyOf r = kv))
      let v ← applyAggFunc aggFunc (grp.map (fun r => rowGet r aggCol))
      pure ((keys.zip kv) ++ [(aggCol, v)] : Row))
    pure ⟨keys ++ [aggCol], rows⟩
  else none

/-- Derivation of the synthetic Ano-Mês column (app.py line 232):
df[Ano-Mês] = df[Data_Movimento_mov].dt.to_period(M).astype(str).  A
missing source column raises; the .dt accessor requires a datetime column,
modelled cell-wise: date cells become their "YYYY-MM" bucket, NaT cells
become the string "NaT", non-datetime cells raise. -/
def deriveAnoMes (df : DataFrame) : Option DataFrame :=
  if "Data_Movimento_mov" ∈ df.cols then do
    let rows ← df.rows.mapM (fun r =>
      match rowGet r "Data_Movimento_mov" with
      | .date d => some (rowSet r "Ano-Mês" (Value.str (yearMonthStr d)))
      | .null => some (rowSet r "Ano-Mês" (Value.str "NaT"))
      | _ => none)
    pure (⟨if "Ano-Mês" ∈ df.cols then df.cols else df.cols ++ ["Ano-Mês"], rows⟩ : DataFrame)
  else none

/-- The group_by value must be a list; other values raise at the membership
test, the append or the groupby (the rare non-raising shapes, such as a
plain string with no color and no aggregation, are outside the model). -/
def asListStrict : Json → Option (List Json)
  | .arr xs => some xs
  | _ => none

/-- Grouping and aggregation stage of gerar_grafico_plotly (app.py lines
219-237), returning the aggregated table together with the aggregation
column (the later y-axis). -/
def groupStage (transformation plan : Json) (df0 : DataFrame) :
    Option (DataFrame × Json) := do
  let groupByJ ← jGetD2 transformation "group_by" (Json.arr [])
  let aggInfo ← jGetD2 transformation "aggregation" (Json.obj [])
  let aggPair ← resolveAgg aggInfo
  let colorCol ← jGetOpt plan "color"
  let gb0 ← asListStrict groupByJ
  let gb1 := if colorCol.truthy && decide (colorCol ∉ gb0) then gb0 ++ [colorCol] else gb0
  let df ← if Json.s "Ano-Mês" ∈ gb1 then deriveAnoMes df0 else pure df0
  let dfAgg ←
    if !gb1.isEmpty && aggPair.1.truthy && aggPair.2.truthy then do
      let keys ← (dedupFirst gb1).mapM asStr
      let aggCol ← asStr aggPair.1
      let aggFunc ← asStr aggPair.2
      groupbyAgg df keys aggCol aggFunc
    else pure df
  pure (dfAgg, aggPair.1)

/-- Row comparison by the cells of one column, used by sort_values. -/
def rowLeB (x : String) (r1 r2 : Row) : Bool :=
  Value.leB (rowGet r1 x) (rowGet r2 x)

/-- The same comparison as a relation, for List.insertionSort. -/
def rowLeProp (x : String) : Row → Row → Prop :=
  fun r1 r2 => rowLeB x r1 r2 = true

instance (x : String) : DecidableRel (rowLeProp x) :=
  fun r1 r2 => inferInstanceAs (Decidable (rowLeB x r1 r2 = true))

/-- df.sort_values(by=x) (app.py line 253): ascending by the named column;
a null or non-string or missing label raises.  The tie order of the pandas
default quicksort and its NaN-last placement are not modelled; ascending
order of the sort column is. -/
def sortValues (df : DataFrame) (byJ : Json) : Option DataFrame :=
  match byJ with
  | .s x => if x ∈ df.cols then some ⟨df.cols, df.rows.insertionSort (rowLeProp x)⟩ else none
  | _ => none

/-- The chart specification assembled by the px.bar / px.pie calls, keeping
the data-bearing parts of the figure (type, title, axis bindings, color
binding, donut hole presence, and the plotted rows); purely presentational
layout constants (margins, backgrounds, label templates, legend placement)
are not modelled. -/
structure Chart where
  typ : String
  title : Json
  xAxis : Json
  yAxis : Json
  color : Json
  donutHole : Bool
  rows : List Row
deriving Repr, DecidableEq

/-- An axis binding accepted by plotly express: absent (null) or the label
of an existing column; anything else raises. -/
def validAxis (df : DataFrame) : Json → Bool
  | .null => true
  | .s c => decide (c ∈ df.cols)
  | _ => false

/-- px.bar(df, x, y, color, title) (app.py lines 257-263). -/
def pxBar (df : DataFrame) (x y color title : Json) : Option Chart :=
  if validAxis df x && validAxis df y && validAxis df color then
    some ⟨"bar", title, x, y, color, false, df.rows⟩
  else none

/-- px.pie(df, names, values, hole, title) (app.py line 277). -/
def pxPie (df : DataFrame) (names values title : Json) (donut : Bool) : Option Chart :=
  if validAxis df names && validAxis df values then
    some ⟨"pie", title, names, values, Json.null, donut, df.rows⟩
  else none

/-- Chart construction by type (app.py lines 241-299): for bar charts the
x-axis is forced to Ano-Mês whenever that column exists in the aggregated
table, and the rows are sorted by the x-axis before plotting; pie and donut
differ only in the hole; any other chart_type leaves fig = None and the
function returns None. -/
def buildChart (plan : Json) (yAxis : Json) (dfAgg : DataFrame) : Option Chart := do
  let chartType ← jGetOpt plan "chart_type"
  let title ← jGetOpt plan "title"
  let xAxis0 ← jGetOpt plan "x_axis"
  let colorCol ← jGetOpt plan "color"
  if chartType = Json.s "bar" then do
    let xAxis := if "Ano-Mês" ∈ dfAgg.cols then Json.s "Ano-Mês" else xAxis0
    let dfSorted ← sortValues dfAgg xAxis
    pxBar dfSorted xAxis yAxis colorCol title
  else if chartType = Json.s "pie" || chartType = Json.s "donut" then
    pxPie dfAgg xAxis0 yAxis title (decide (chartType = Json.s "donut"))
  else none

/-- gerar_grafico_plotly (app.py lines 181-302): filter, check emptiness,
group and aggregate, check emptiness, build the chart; every caught
exception along the way and every explicit early return yields none. -/
def gerar_grafico_plotly (plan : Json) (df_original : DataFrame) : Option Chart := do
  let transformation ← jGetOpt plan "data_transformation"
  if transformation.truthy then do
    let filtersJ ← jGetD2 transformation "filters" (Json.arr [])
    let filters ← asIterList filtersJ
    let df ← applyFilters filters df_original
    if df.rows.isEmpty then none
    else do
      let staged ← groupStage transformation plan df
      if staged.1.rows.isEmpty then none
      else buildChart plan staged.2 staged.1
  else none

/-- The chart batch of the /ask route (app.py line 406): plans whose chart
resolves to None are discarded, the others keep their relative order. -/
def processPlans (plans : List Json) (df : DataFrame) : List Chart :=
  plans.filterMap (fun p => gerar_grafico_plotly p df)

/-- JSON whitespace. -/
def isJsonWs (c : Char) : Bool :=
  c = ' ' || c = '\t' || c = '\n' || c = '\r'

/-- Unescaping of the simple JSON string escapes; unicode escapes are
outside the model.  The self-representing escapes (quote, backslash,
slash) map to themselves, the letter escapes to their control codes. -/
def unescapeChar (e : Char) : Option Char :=
  if e = '"' || e = '\\' || e = '/' then some e
  else if e = 'n' then some (Char.ofNat 10)
  else if e = 't' then some (Char.ofNat 9)
  else if e = 'r' then some (Char.ofNat 13)
  else if e = 'b' then some (Char.ofNat 8)
  else if e = 'f' then some (Char.ofNat 12)
  else none

/-- Body of a JSON string after the opening quote: returns the content and
the remainder after the closing quote. -/
def parseStringBody : List Char → Option (List Char × List Char)
  | [] => none
  | '"' :: rest => some ([], rest)
  | '\\' :: e :: rest => do
    let u ← unescapeChar e
    let (content, rem) ← parseStringBody rest
    pure (u :: content, rem)
  | '\\' :: [] => none
  | c :: rest => do
    let (content, rem) ← parseStringBody rest
    pure (c :: content, rem)

/-- A JSON integer literal (optional minus, digits); a fractional part or
exponent would be a float, outside the model. -/
def parseIntLit (cs : List Char) : Option (Json × List Char) :=
  let (neg, cs1) := match cs with
    | '-' :: t => (true, t)
    | _ => (false, cs)
  match takeDigits cs1 with
  | ([], _) => none
  | (ds, rest) =>
    match rest with
    | '.' :: _ => none
    | 'e' :: _ => none
    | 'E' :: _ => none
    | _ =>
      let n : Int := digitsToNat ds
      some (Json.i (if neg then -n else n), rest)

mutual

/-- Recursive-descent JSON value parser with a structural fuel. -/
def parseVal : Nat → List Char → Option (Json × List Char)
  | 0, _ => none
  | fuel + 1, cs =>
    match cs.dropWhile isJsonWs with
    | [] => none
    | c :: rest =>
      if c = '{' then parseObjBody fuel rest
      else if c = '[' then parseArrBody fuel rest
      else if c = '"' then
        (parseStringBody rest).map (fun p => (Json.s (String.mk p.1), p.2))
      else if c = 't' then
        if ['r', 'u', 'e'].isPrefixOf rest then some (Json.b true, rest.drop 3) else none
      else if c = 'f' then
        if ['a', 'l', 's', 'e'].isPrefixOf rest then some (Json.b false, rest.drop 4) else none
      else if c = 'n' then
        if ['u', 'l', 'l'].isPrefixOf rest then some (Json.null, rest.drop 3) else none
      else parseIntLit (c :: rest)

/-- Object body after the opening brace: empty object or first member. -/
def parseObjBody : Nat → List Char → Option (Json × List Char)
  | 0, _ => none
  | fuel + 1, cs =>
    match cs.dropWhile isJsonWs with
    | '}' :: rest => some (Json.obj [], rest)
    | other => do
      let (kv, rem) ← parseMember fuel other
      parseObjTail fuel rem [kv]

/-- Object members after the first: comma-separated until the brace. -/
def parseObjTail : Nat → List Char → List (String × Json) → Option (Json × List Char)
  | 0, _, _ => none
  | fuel + 1, cs, acc =>
    match cs.dropWhile isJsonWs with
    | '}' :: rest => some (Json.obj acc.reverse, rest)
    | ',' :: rest => do
      let (kv, rem) ← parseMember fuel rest
      parseObjTail fuel rem (kv :: acc)
    | _ => none

/-- One key-value member of an object. -/
def parseMember : Nat → List Char → Option ((String × Json) × List Char)
  | 0, _ => none
  | fuel + 1, cs =>
    match cs.dropWhile isJsonWs with
    | '"' :: rest => do
      let (key, rem1) ← parseStringBody rest
      match rem1.dropWhile isJsonWs with
      | ':' :: rem2 => do
        let (v, rem3) ← parseVal fuel rem2
        pure ((String.mk key, v), rem3)
      | _ => none
    | _ => none

/-- Array body after the opening bracket: empty array or first element. -/
def parseArrBody : Nat → List Char → Option (Json × List Char)
  | 0, _ => none
  | fuel + 1, cs =>
    match cs.dropWhile isJsonWs with
    | ']' :: rest => some (Json.arr [], rest)
    | other => do
      let (v, rem) ← parseVal fuel other
      parseArrTail fuel rem [v]

/-- Array elements after the first: comma-separated until the bracket. -/
def parseArrTail : Nat → List Char → List Json → Option (Json × List Char)
  | 0, _, _ => none
  | fuel + 1, cs, acc =>
    match cs.dropWhile isJsonWs with
    | ']' :: rest => some (Json.arr acc.reverse, rest)
    | ',' :: rest => do
      let (v, rem) ← parseVal fuel rest
      parseArrTail fuel rem (v :: acc)
    | _ => none

end

/-- json.loads on a character list: one value, nothing but whitespace after
it.  Nesting depth is bounded by the length, so the fuel suffices. -/
def jsonLoads (cs : List Char) : Option Json := do
  let (v, rest) ← parseVal (cs.length + 1) cs
  if (rest.dropWhile isJsonWs).isEmpty then pure v else none

/-- Index of the first occurrence of a character, as str.find. -/
def firstIdxOf (c : Char) (l : List Char) : Option Nat :=
  l.findIdx? (fun ch => ch = c)

/-- Index of the last occurrence of a character, as str.rfind. -/
def lastIdxOf (c : Char) (l : List Char) : Option Nat :=
  (l.reverse.findIdx? (fun ch => ch = c)).map (fun iRev => l.length - 1 - iRev)

/-- extrair_json (app.py lines 113-124): the span from the first opening
brace to the last closing brace is parsed as JSON; a missing brace, an
empty or backwards span, or a parse failure all yield None. -/
def extrair_json (text : String) : Option Json :=
  let l := text.toList
  match firstIdxOf '{' l, lastIdxOf '}' l with
  | some startIdx, some closeIdx => jsonLoads ((l.drop startIdx).take (closeIdx + 1 - startIdx))
  | _, _ => none

/-- History update of a successful /ask turn (app.py lines 409-412): append
the new question/answer pair, then pop the oldest entry when the history
exceeds 3 entries. -/
def push_history (h : List (String × Json)) (q : String) (a : Json) : List (String × Json) :=
  let h2 := h ++ [(q, a)]
  if 3 < h2.length then h2.drop 1 else h2

/-- The literal model-response error message of the /ask route. -/
def MSG_MODEL_ERROR : String := "Não consegui processar a resposta do modelo. Tente novamente."

/-- The literal catch-all error message of the /ask route. -/
def MSG_UNEXPECTED_ERROR : String := "Ocorreu um erro inesperado ao processar sua pergunta."

/-- The response payload of the /ask route: answer, insight, rendered
charts and HTTP status. -/
structure AskResponse where
  answer : Json
  insight : Json
  charts : List Chart
  statusCode : Nat
deriving Repr, DecidableEq

/-- The model response's chart_plans as an iterable: a list yields its
elements, a string its one-character substrings, a dict its keys (each
such plan then fails inside gerar_grafico_plotly's own try/except and is
dropped); other values are not iterable and raise to the route's catch-all
handler. -/
def asPlanIter : Json → Option (List Json)
  | .arr xs => some xs
  | .s st => some (st.toList.map (fun c => Json.s (String.mk [c])))
  | .obj entries => some (entries.map (fun kv => Json.s kv.1))
  | _ => none

/-- The model-response handling of the /ask route (app.py lines 392-423),
after the data load and the non-empty-question check, with the language
model's free-form reply supplied as responseText: JSON extraction and the
falsy check gate everything; on success the charts are rendered, the
history is appended and truncated, and the parts are returned; on a
model-response failure the error message is returned with the history
untouched; any other exception yields the catch-all message, also with the
history untouched. -/
def ask_gemini (history : List (String × Json)) (question : String) (responseText : String)
    (df : DataFrame) : AskResponse × List (String × Json) :=
  match extrair_json responseText with
  | none => (⟨Json.s MSG_MODEL_ERROR, Json.null, [], 500⟩, history)
  | some rj =>
    if !rj.truthy then (⟨Json.s MSG_MODEL_ERROR, Json.null, [], 500⟩, history)
    else
      match rj with
      | Json.obj entries =>
        let rjO := Json.obj entries
        let textAnswer := jGetD rjO "answer"
        let insight := jGetD rjO "insight_text"
        let chartPlans := (jLookup "chart_plans" entries).getD (Json.arr [])
        match asPlanIter chartPlans with
        | none => (⟨Json.s MSG_UNEXPECTED_ERROR, Json.null, [], 500⟩, history)
        | some plans =>
          (⟨textAnswer, insight, processPlans plans df, 200⟩,
           push_history history question textAnswer)
      | _ => (⟨Json.s MSG_UNEXPECTED_ERROR, Json.null, [], 500⟩, history)

/-! Theorems about the claims. -/

/-- Claim C10: a filter entry whose value field holds a falsy payload (0,
false, empty string or empty list) has its comparison value resolved from
the values field instead, null when that is absent; in particular a filter
with value 0 and no values field resolves to null, never to 0, so the
value/values aliasing is not first-present-wins on falsy payloads. -/
theorem c10_falsy_value_resolution :
    (∀ f : Json, (jGetD f "value").truthy = false →
      resolveFilterValue f = jGetD f "values") ∧
    (∀ cJ opJ : Json,
      resolveFilterValue (Json.obj [("column", cJ), ("operator", opJ), ("value", Json.i 0)])
        = Json.null) := by
  constructor
  · intro f h
    simp [resolveFilterValue, pyOr, h]
  · intro cJ opJ
    simp [resolveFilterValue, pyOr, jGetD, jLookup, Json.truthy]

/-- Witness for C10 at a concrete falsy-valued filter entry. -/
theorem c10_falsy_value_resolution_witness :
    (jGetD (Json.obj [("column", Json.s "Valor"), ("operator", Json.s "=="),
        ("value", Json.i 0), ("values", Json.s "alvo")]) "value").truthy = false ∧
    resolveFilterValue (Json.obj [("column", Json.s "Valor"), ("operator", Json.s "=="),
        ("value", Json.i 0), ("values", Json.s "alvo")])
      = jGetD (Json.obj [("column", Json.s "Valor"), ("operator", Json.s "=="),
        ("value", Json.i 0), ("values", Json.s "alvo")]) "values" :=
  ⟨rfl, c10_falsy_value_resolution.1 _ rfl⟩

/-- Claim C3: a single-entry mapping aggregation descriptor and the
explicit column/function object carrying the same data normalize to the
same pair, and the whole chart generation gives the same result on plans
that differ only in which of the two shapes they use. -/
theorem c3_aggregation_shapes (c : String) (fj : Json) (ct ti xa co fi gb : Json)
    (df : DataFrame) :
    resolveAgg (Json.obj [(c, fj)])
      = resolveAgg (Json.obj [("column", Json.s c), ("function", fj)]) ∧
    gerar_grafico_plotly (Json.obj [("chart_type", ct), ("title", ti), ("x_axis", xa),
        ("color", co),
        ("data_transformation", Json.obj [("filters", fi), ("group_by", gb),
          ("aggregation", Json.obj [(c, fj)])])]) df
      = gerar_grafico_plotly (Json.obj [("chart_type", ct), ("title", ti), ("x_axis", xa),
        ("color", co),
        ("data_transformation", Json.obj [("filters", fi), ("group_by", gb),
          ("aggregation", Json.obj [("column", Json.s c), ("function", fj)])])]) df := by
  constructor
  · rfl
  · rfl

/-- Claim C5: a filter carrying its operator under the field name operator
and the same filter carrying it under the field name condition produce
identical filtered tables, and a filter entry carrying neither field is
skipped, with the remaining filters still processed and the plan not
aborted. -/
theorem c5_operator_alias :
    (∀ (cJ opJ v : Json) (df : DataFrame),
      applyOneFilter df (Json.obj [("column", cJ), ("operator", opJ), ("value", v)])
        = applyOneFilter df (Json.obj [("column", cJ), ("condition", opJ), ("value", v)])) ∧
    (∀ (cJ v : Json) (rest : List Json) (df : DataFrame),
      applyFilters (Json.obj [("column", cJ), ("value", v)] :: rest) df
        = applyFilters rest df) := by
  have hnull : Json.truthy Json.null = false := rfl
  constructor
  · intro cJ opJ v df
    cases h : opJ.truthy with
    | true =>
      simp [applyOneFilter, jIndex, jLookup, resolveFilterOperator, resolveFilterValue,
        jGetD, pyOr, h, hnull]
    | false =>
      simp [applyOneFilter, jIndex, jLookup, resolveFilterOperator, resolveFilterValue,
        jGetD, pyOr, h, hnull]
  · intro cJ v rest df
    simp [applyFilters, List.foldlM, applyOneFilter, jIndex, jLookup,
      resolveFilterOperator, resolveFilterValue, jGetD, pyOr, hnull]

/-- Generalized history-fold lemma: folding turns over a history of at most
3 entries keeps exactly the trailing 3 entries of the combined sequence. -/
theorem push_history_foldl (turns : List (String × Json)) :
    ∀ h : List (String × Json), h.length ≤ 3 →
      turns.foldl (fun acc qa => push_history acc qa.1 qa.2) h
        = (h ++ turns).drop ((h ++ turns).length - 3) := by
  induction turns with
  | nil =>
    intro h hlen
    simp only [List.foldl_nil, List.append_nil]
    rw [show h.length - 3 = 0 from by omega]
    simp
  | cons t ts ih =>
    intro h hlen
    rw [List.foldl_cons]
    by_cases hcase : h.length + 1 ≤ 3
    · have hstep : push_history h t.1 t.2 = h ++ [t] := by
        unfold push_history
        rw [if_neg]
        simp
        omega
      rw [hstep, ih (h ++ [t]) (by simp; omega)]
      simp [List.append_assoc]
    · have h3 : h.length = 3 := by omega
      have hne : h ≠ [] := by
        intro hnil
        rw [hnil] at h3
        simp at h3
      have hstep : push_history h t.1 t.2 = (h ++ [t]).drop 1 := by
        unfold push_history
        rw [if_pos]
        simp
        omega
      rw [hstep, ih ((h ++ [t]).drop 1) (by simp; omega)]
      have hdrop1 : (h ++ [t]).drop 1 ++ ts = ((h ++ t :: ts)).drop 1 := by
        rw [List.drop_append_of_le_length (by omega), List.drop_append_of_le_length (by omega)]
        simp
      rw [hdrop1, List.drop_drop]
      congr 1
      simp only [List.length_drop, List.length_append, List.length_cons]
      omega

/-- Claim C9: starting from an empty history, appending each successful
turn and evicting the oldest entry past 3 leaves, after more than 3 turns,
exactly the 3 most recent turns in order. -/
theorem c9_history_retention (turns : List (String × Json)) (hlen : 3 < turns.length) :
    turns.foldl (fun acc qa => push_history acc qa.1 qa.2) [] = turns.drop (turns.length - 3)
      ∧ (turns.foldl (fun acc qa => push_history acc qa.1 qa.2) []).length = 3 := by
  have hmain := push_history_foldl turns [] (by simp)
  simp at hmain
  rw [hmain]
  constructor
  · rfl
  · simp
    omega

/-- Witness for C9: five turns leave exactly the last three. -/
theorem c9_history_retention_witness :
    3 < ([("q1", Json.s "a1"), ("q2", Json.s "a2"), ("q3", Json.s "a3"),
          ("q4", Json.s "a4"), ("q5", Json.s "a5")] : List (String × Json)).length ∧
    ([("q1", Json.s "a1"), ("q2", Json.s "a2"), ("q3", Json.s "a3"),
      ("q4", Json.s "a4"), ("q5", Json.s "a5")] : List (String × Json)).foldl
        (fun acc qa => push_history acc qa.1 qa.2) []
      = [("q3", Json.s "a3"), ("q4", Json.s "a4"), ("q5", Json.s "a5")] := by
  refine ⟨by decide, ?_⟩
  have h := (c9_history_retention [("q1", Json.s "a1"), ("q2", Json.s "a2"),
    ("q3", Json.s "a3"), ("q4", Json.s "a4"), ("q5", Json.s "a5")] (by decide)).1
  rw [h]
  rfl

/-- Claim C8: a model response from which no JSON can be extracted makes
the /ask route return the model-response error message with status 500 and
leave the conversation history exactly as it was. -/
theorem c8_model_response_error (h : List (String × Json)) (q t : String) (df : DataFrame)
    (hx : extrair_json t = none) :
    ask_gemini h q t df = (⟨Json.s MSG_MODEL_ERROR, Json.null, [], 500⟩, h) := by
  simp [ask_gemini, hx]

/-- Witness for C8 at a brace-free model response. -/
theorem c8_model_response_error_witness :
    extrair_json "sem json nenhum aqui" = none ∧
    ask_gemini [("q0", Json.s "a0")] "pergunta" "sem json nenhum aqui" ⟨[], []⟩
      = (⟨Json.s MSG_MODEL_ERROR, Json.null, [], 500⟩, [("q0", Json.s "a0")]) :=
  ⟨rfl, c8_model_response_error [("q0", Json.s "a0")] "pergunta" "sem json nenhum aqui"
    ⟨[], []⟩ rfl⟩

/-- The chart generator either fails outright or hands over to the chart
construction step with some y-axis and aggregated table. -/
theorem gerar_result_buildChart (plan : Json) (df : DataFrame) :
    gerar_grafico_plotly plan df = none ∨
    ∃ y dfA, gerar_grafico_plotly plan df = buildChart plan y dfA := by
  unfold gerar_grafico_plotly
  cases h1 : jGetOpt plan "data_transformation" with
  | none => left; rfl
  | some t =>
    simp only [bind, Option.bind]
    cases htr : t.truthy with
    | false => simp [htr]
    | true =>
      simp only [htr, if_true]
      cases h2 : jGetD2 t "filters" (Json.arr []) with
      | none => simp [h2]
      | some fj =>
        cases h3 : asIterList fj with
        | none => simp [h2, h3]
        | some fl =>
          cases h4 : applyFilters fl df with
          | none => simp [h2, h3, h4]
          | some dff =>
            cases he : dff.rows.isEmpty with
            | true =>
              have hrows : dff.rows = [] := by simpa using he
              simp [h2, h3, h4, hrows]
            | false =>
              have hrows : ¬ dff.rows = [] := by simpa using he
              cases h5 : groupStage t plan dff with
              | none => simp [h2, h3, h4, hrows, h5]
              | some staged =>
                cases he2 : staged.1.rows.isEmpty with
                | true =>
                  have hrows2 : staged.1.rows = [] := by simpa using he2
                  simp [h2, h3, h4, hrows, h5, hrows2]
                | false =>
                  have hrows2 : ¬ staged.1.rows = [] := by simpa using he2
                  right
                  refine ⟨staged.2, staged.1, ?_⟩
                  simp [h2, h3, h4, hrows, h5, hrows2]

/-- Chart construction yields nothing when the chart_type is not bar, pie
or donut. -/
theorem buildChart_unsupported (plan y : Json) (dfA : DataFrame)
    (hct : jGetD plan "chart_type" ∉ [Json.s "bar", Json.s "pie", Json.s "donut"]) :
    buildChart plan y dfA = none := by
  have hb : jGetD plan "chart_type" ≠ Json.s "bar" := fun h => hct (by rw [h]; simp)
  have hp : jGetD plan "chart_type" ≠ Json.s "pie" := fun h => hct (by rw [h]; simp)
  have hd : jGetD plan "chart_type" ≠ Json.s "donut" := fun h => hct (by rw [h]; simp)
  unfold buildChart
  cases plan with
  | obj entries =>
    have hgd : jGetD (Json.obj entries) "chart_type"
        = (jLookup "chart_type" entries).getD Json.null := rfl
    rw [hgd] at hb hp hd
    simp only [jGetOpt, bind, Option.bind]
    simp [hb, hp, hd]
  | null => rfl
  | b x => rfl
  | i n => rfl
  | s st => rfl
  | arr elems => rfl

/-- Claim C7: a plan whose chart_type is none of bar, pie, donut yields no
chart (and no error), and in a batch processed by the /ask route a plan
yielding no chart is dropped while the other plans keep their relative
order. -/
theorem c7_unsupported_chart_type :
    (∀ (plan : Json) (df : DataFrame),
      jGetD plan "chart_type" ∉ [Json.s "bar", Json.s "pie", Json.s "donut"] →
      gerar_grafico_plotly plan df = none) ∧
    (∀ (xs ys : List Json) (p : Json) (df : DataFrame),
      gerar_grafico_plotly p df = none →
      processPlans (xs ++ p :: ys) df = processPlans xs df ++ processPlans ys df) := by
  constructor
  · intro plan df hct
    rcases gerar_result_buildChart plan df with h | ⟨y, dfA, h⟩
    · exact h
    · rw [h]
      exact buildChart_unsupported plan y dfA hct
  · intro xs ys p df h
    simp [processPlans, List.filterMap_append, List.filterMap_cons, h]

/-- Witness for C7: a scatter3d plan produces no chart, while a pie plan in
the same batch still renders, keeping its position. -/
theorem c7_unsupported_chart_type_witness :
    jGetD (Json.obj [("chart_type", Json.s "scatter3d"),
        ("data_transformation", Json.obj [("group_by", Json.arr [])])]) "chart_type"
      ∉ [Json.s "bar", Json.s "pie", Json.s "donut"] ∧
    gerar_grafico_plotly (Json.obj [("chart_type", Json.s "scatter3d"),
        ("data_transformation", Json.obj [("group_by", Json.arr [])])])
      ⟨["Valor"], [[("Valor", Value.int 1)]]⟩ = none ∧
    processPlans [Json.obj [("chart_type", Json.s "scatter3d"),
        ("data_transformation", Json.obj [("group_by", Json.arr [])])],
      Json.obj [("chart_type", Json.s "pie"), ("title", Json.s "T"),
        ("data_transformation", Json.obj [("group_by", Json.arr [])])]]
      ⟨["Valor"], [[("Valor", Value.int 1)]]⟩
      = processPlans [] ⟨["Valor"], [[("Valor", Value.int 1)]]⟩
        ++ processPlans [Json.obj [("chart_type", Json.s "pie"), ("title", Json.s "T"),
            ("data_transformation", Json.obj [("group_by", Json.arr [])])]]
          ⟨["Valor"], [[("Valor", Value.int 1)]]⟩ := by
  have h1 := c7_unsupported_chart_type.1 (Json.obj [("chart_type", Json.s "scatter3d"),
    ("data_transformation", Json.obj [("group_by", Json.arr [])])])
    ⟨["Valor"], [[("Valor", Value.int 1)]]⟩ (by decide)
  exact ⟨by decide, h1, c7_unsupported_chart_type.2 [] _ _ _ h1⟩

/-- Failure propagation: when the filter stage leaves no rows, the chart
generator returns none. -/
theorem gerar_none_of_filters_empty (plan : Json) (df : DataFrame) (t fj : Json)
    (fl : List Json) (dff : DataFrame)
    (h1 : jGetOpt plan "data_transformation" = some t) (htr : t.truthy = true)
    (h2 : jGetD2 t "filters" (Json.arr []) = some fj) (h3 : asIterList fj = some fl)
    (h4 : applyFilters fl df = some dff) (hrows : dff.rows = []) :
    gerar_grafico_plotly plan df = none := by
  simp [gerar_grafico_plotly, bind, Option.bind, h1, htr, h2, h3, h4, hrows]

/-- Failure propagation: when the grouping stage leaves no rows, the chart
generator returns none. -/
theorem gerar_none_of_agg_empty (plan : Json) (df : DataFrame) (t fj : Json)
    (fl : List Json) (dff : DataFrame) (staged : DataFrame × Json)
    (h1 : jGetOpt plan "data_transformation" = some t) (htr : t.truthy = true)
    (h2 : jGetD2 t "filters" (Json.arr []) = some fj) (h3 : asIterList fj = some fl)
    (h4 : applyFilters fl df = some dff) (h5 : groupStage t plan dff = some staged)
    (hrows : staged.1.rows = []) :
    gerar_grafico_plotly plan df = none := by
  by_cases hd : dff.rows = []
  · exact gerar_none_of_filters_empty plan df t fj fl dff h1 htr h2 h3 h4 hd
  · simp [gerar_grafico_plotly, bind, Option.bind, h1, htr, h2, h3, h4, hd, h5, hrows]

/-- Claim C6: if applying the plan's filters leaves the table with zero
rows, or the grouped-and-aggregated result has zero rows, the chart
generator returns null rather than an empty chart. -/
theorem c6_empty_data_no_chart :
    (∀ (plan : Json) (df : DataFrame) (t fj : Json) (fl : List Json) (dff : DataFrame),
      jGetOpt plan "data_transformation" = some t → t.truthy = true →
      jGetD2 t "filters" (Json.arr []) = some fj → asIterList fj = some fl →
      applyFilters fl df = some dff → dff.rows = [] →
      gerar_grafico_plotly plan df = none) ∧
    (∀ (plan : Json) (df : DataFrame) (t fj : Json) (fl : List Json) (dff : DataFrame)
        (staged : DataFrame × Json),
      jGetOpt plan "data_transformation" = some t → t.truthy = true →
      jGetD2 t "filters" (Json.arr []) = some fj → asIterList fj = some fl →
      applyFilters fl df = some dff → groupStage t plan dff = some staged →
      staged.1.rows = [] →
      gerar_grafico_plotly plan df = none) :=
  ⟨gerar_none_of_filters_empty, gerar_none_of_agg_empty⟩

/-- Witness for C6: a filter that matches nothing and a grouping whose only
key value is null both lead to no chart at concrete inputs. -/
theorem c6_empty_data_no_chart_witness :
    (applyFilters [Json.obj [("column", Json.s "Valor"), ("operator", Json.s "=="),
        ("value", Json.i 999)]] ⟨["Valor"], [[("Valor", Value.int 1)]]⟩
      = some ⟨["Valor"], []⟩ ∧
     gerar_grafico_plotly (Json.obj [("chart_type", Json.s "bar"),
        ("data_transformation", Json.obj [("filters", Json.arr [Json.obj
          [("column", Json.s "Valor"), ("operator", Json.s "=="),
           ("value", Json.i 999)]])])]) ⟨["Valor"], [[("Valor", Value.int 1)]]⟩ = none) ∧
    (groupStage (Json.obj [("group_by", Json.arr [Json.s "G"]),
        ("aggregation", Json.obj [("Valor", Json.s "sum")])])
      (Json.obj [("chart_type", Json.s "bar"),
        ("data_transformation", Json.obj [("group_by", Json.arr [Json.s "G"]),
          ("aggregation", Json.obj [("Valor", Json.s "sum")])])])
      ⟨["G", "Valor"], [[("G", Value.null), ("Valor", Value.int 1)]]⟩
      = some (⟨["G", "Valor"], []⟩, Json.s "Valor") ∧
     gerar_grafico_plotly (Json.obj [("chart_type", Json.s "bar"),
        ("data_transformation", Json.obj [("group_by", Json.arr [Json.s "G"]),
          ("aggregation", Json.obj [("Valor", Json.s "sum")])])])
      ⟨["G", "Valor"], [[("G", Value.null), ("Valor", Value.int 1)]]⟩ = none) := by
  constructor
  · refine ⟨rfl, ?_⟩
    exact c6_empty_data_no_chart.1 _ _
      (Json.obj [("filters", Json.arr [Json.obj [("column", Json.s "Valor"),
        ("operator", Json.s "=="), ("value", Json.i 999)]])])
      (Json.arr [Json.obj [("column", Json.s "Valor"), ("operator", Json.s "=="),
        ("value", Json.i 999)]])
      [Json.obj [("column", Json.s "Valor"), ("operator", Json.s "=="),
        ("value", Json.i 999)]]
      ⟨["Valor"], []⟩ rfl rfl rfl rfl rfl rfl
  · refine ⟨rfl, ?_⟩
    exact c6_empty_data_no_chart.2 _ _
      (Json.obj [("group_by", Json.arr [Json.s "G"]),
        ("aggregation", Json.obj [("Valor", Json.s "sum")])])
      (Json.arr []) []
      ⟨["G", "Valor"], [[("G", Value.null), ("Valor", Value.int 1)]]⟩
      (⟨["G", "Valor"], []⟩, Json.s "Valor") rfl rfl rfl rfl rfl rfl rfl

/-- A cell a datetime column can hold: a date or NaT. -/
def isDateOrNull : Value → Bool
  | .null => true
  | .date _ => true
  | _ => false

/-- The rows an inclusive between filter keeps: date cells inside the
closed interval. -/
def betweenKeep (lo hi : Nat) : Value → Bool
  | .date d => decide (lo ≤ d) && decide (d ≤ hi)
  | _ => false

/-- A fallible filter whose predicate always answers agrees with the plain
filter of the answers. -/
theorem filterOpt_eq_filter {α : Type} (p : α → Option Bool) (q : α → Bool) :
    ∀ l : List α, (∀ a ∈ l, p a = some (q a)) → filterOpt p l = some (l.filter q) := by
  intro l
  induction l with
  | nil => intro _; rfl
  | cons a rest ih =>
    intro h
    have ha := h a (List.mem_cons_self a rest)
    have hrest := ih (fun x hx => h x (List.mem_cons_of_mem a hx))
    simp [filterOpt, ha, hrest, List.filter_cons]

/-- between answers on every date-or-null cell, with the inclusive-interval
predicate. -/
theorem betweenB_eq (v : Value) (lo hi : Nat) (h : isDateOrNull v = true) :
    betweenB v lo hi = some (betweenKeep lo hi v) := by
  cases v <;> simp_all [isDateOrNull, betweenB, betweenKeep]

/-- A looked-up cell of a date-or-null column is date-or-null. -/
theorem rowGet_dateOrNull (r : Row) (c : String)
    (h : ∀ kv ∈ r, kv.1 = c → isDateOrNull kv.2 = true) :
    isDateOrNull (rowGet r c) = true := by
  induction r with
  | nil => rfl
  | cons kv rest ih =>
    obtain ⟨k, v⟩ := kv
    by_cases hk : k = c
    · have hd := h (k, v) (List.mem_cons_self (k, v) rest) hk
      simp only [rowGet, if_pos hk]
      exact hd
    · simp only [rowGet, if_neg hk]
      exact ih (fun p hp hpc => h p (List.mem_cons_of_mem _ hp) hpc)

/-- Coercing a column whose cells are already dates or NaT changes
nothing. -/
theorem coerceColumn_id (df : DataFrame) (c : String) (hc : c ∈ df.cols)
    (hv : ∀ r ∈ df.rows, ∀ kv ∈ r, kv.1 = c → isDateOrNull kv.2 = true) :
    coerceColumn df c = some df := by
  obtain ⟨cols, rows⟩ := df
  unfold coerceColumn
  simp only at hc hv
  rw [if_pos hc]
  have hrow : ∀ r ∈ rows,
      r.map (fun kv => (kv.1, if kv.1 = c then toDatetimeCoerce kv.2 else kv.2)) = r := by
    intro r hr
    have hcell : ∀ kv ∈ r,
        (fun kv : String × Value =>
          (kv.1, if kv.1 = c then toDatetimeCoerce kv.2 else kv.2)) kv = id kv := by
      intro kv hkv
      obtain ⟨k, v⟩ := kv
      by_cases hk : k = c
      · have hd := hv r hr (k, v) hkv hk
        simp only [id, if_pos hk]
        cases v <;> simp_all [isDateOrNull, toDatetimeCoerce]
      · simp only [id, if_neg hk]
    rw [List.map_congr_left hcell, List.map_id]
  have hrows : rows.map (fun r =>
      r.map (fun kv => (kv.1, if kv.1 = c then toDatetimeCoerce kv.2 else kv.2))) = rows := by
    have houter : ∀ r ∈ rows, (fun r : Row =>
        r.map (fun kv => (kv.1, if kv.1 = c then toDatetimeCoerce kv.2 else kv.2))) r
        = id r := fun r hr => hrow r hr
    rw [List.map_congr_left houter, List.map_id]
  rw [hrows]

/-- Counterexample for C4 as stated: an in filter with an empty list value
is falsy, so the value is re-resolved through the values alias to null and
the filter errors out (the whole plan yields none) instead of keeping
exactly the rows whose cell is a member of the empty list (none of them,
with the plan carrying on). -/
theorem c4_counterexample :
    applyOneFilter ⟨["Cat"], [[("Cat", Value.str "x")]]⟩
      (Json.obj [("column", Json.s "Cat"), ("operator", Json.s "in"),
        ("value", Json.arr [])]) = none ∧
    ¬ (applyOneFilter ⟨["Cat"], [[("Cat", Value.str "x")]]⟩
      (Json.obj [("column", Json.s "Cat"), ("operator", Json.s "in"),
        ("value", Json.arr [])])
      = some ⟨["Cat"], List.filter
          (fun r => decide (rowGet r "Cat" ∈ ([] : List Value)))
          [[("Cat", Value.str "x")]]⟩) := by
  constructor
  · rfl
  · decide

/-- Claim C4, amended: a between filter with a two-element list of
parseable date bounds over a date-or-NaT column keeps exactly the rows
whose cell lies inclusively between the bounds; an in filter with a
NONEMPTY list of scalar values keeps exactly the rows whose cell is a
member of the list (an empty list is falsy and is re-resolved through the
values alias, erroring the plan). -/
theorem c4_between_and_membership :
    (∀ (c d1 d2 : String) (lo hi : Nat) (df : DataFrame),
      parseDate d1 = some lo → parseDate d2 = some hi → c ∈ df.cols →
      (∀ r ∈ df.rows, ∀ kv ∈ r, kv.1 = c → isDateOrNull kv.2 = true) →
      applyOneFilter df (Json.obj [("column", Json.s c), ("operator", Json.s "between"),
        ("value", Json.arr [Json.s d1, Json.s d2])])
        = some ⟨df.cols, df.rows.filter (fun r => betweenKeep lo hi (rowGet r c))⟩) ∧
    (∀ (c : String) (vs : List Json) (ws : List Value) (df : DataFrame),
      vs ≠ [] → strContains c "Data" = false → vs.mapM jsonScalar = some ws →
      c ∈ df.cols →
      applyOneFilter df (Json.obj [("column", Json.s c), ("operator", Json.s "in"),
        ("value", Json.arr vs)])
        = some ⟨df.cols, df.rows.filter (fun r => decide (rowGet r c ∈ ws))⟩) := by
  constructor
  · intro c d1 d2 lo hi df h1 h2 hc hv
    have hfilter : filterOpt (fun r => betweenB (rowGet r c) lo hi) df.rows
        = some (df.rows.filter (fun r => betweenKeep lo hi (rowGet r c))) := by
      apply filterOpt_eq_filter
      intro r hr
      exact betweenB_eq _ lo hi (rowGet_dateOrNull r c (hv r hr))
    cases hD : strContains c "Data" with
    | true =>
      have hco := coerceColumn_id df c hc hv
      simp [applyOneFilter, jIndex, jLookup, asStr, resolveFilterOperator,
        resolveFilterValue, jGetD, pyOr, Json.truthy, hD, hco, toDatetimeStrict,
        h1, h2, hc, hfilter, bind, Option.bind]
    | false =>
      simp [applyOneFilter, jIndex, jLookup, asStr, resolveFilterOperator,
        resolveFilterValue, jGetD, pyOr, Json.truthy, hD, toDatetimeStrict,
        h1, h2, hc, hfilter, bind, Option.bind]
  · intro c vs ws df hvs hD hmap hc
    have htr : (Json.arr vs).truthy = true := by
      simp [Json.truthy, hvs]
    have hmap2 : List.mapM.loop jsonScalar vs [] = some ws := hmap
    simp [applyOneFilter, jIndex, jLookup, asStr, resolveFilterOperator,
      resolveFilterValue, jGetD, pyOr, Json.truthy, htr, hvs, hD, hmap, hmap2, hc,
      bind, Option.bind]

/-- Witness for C4: a between filter over a date column (with one NaT row)
keeps exactly the in-range row, endpoints inclusive, and a nonempty in
filter keeps exactly the matching rows. -/
theorem c4_between_and_membership_witness :
    applyOneFilter ⟨["Data_Movimento_mov", "Cat"],
        [[("Data_Movimento_mov", Value.date 20240115), ("Cat", Value.str "x")],
         [("Data_Movimento_mov", Value.date 20240310), ("Cat", Value.str "y")],
         [("Data_Movimento_mov", Value.null), ("Cat", Value.str "x")]]⟩
      (Json.obj [("column", Json.s "Data_Movimento_mov"), ("operator", Json.s "between"),
        ("value", Json.arr [Json.s "2024-01-01", Json.s "2024-02-28"])])
      = some ⟨["Data_Movimento_mov", "Cat"],
          [[("Data_Movimento_mov", Value.date 20240115), ("Cat", Value.str "x")]]⟩ ∧
    applyOneFilter ⟨["Data_Movimento_mov", "Cat"],
        [[("Data_Movimento_mov", Value.date 20240115), ("Cat", Value.str "x")],
         [("Data_Movimento_mov", Value.date 20240310), ("Cat", Value.str "y")],
         [("Data_Movimento_mov", Value.null), ("Cat", Value.str "x")]]⟩
      (Json.obj [("column", Json.s "Cat"), ("operator", Json.s "in"),
        ("value", Json.arr [Json.s "x"])])
      = some ⟨["Data_Movimento_mov", "Cat"],
          [[("Data_Movimento_mov", Value.date 20240115), ("Cat", Value.str "x")],
           [("Data_Movimento_mov", Value.null), ("Cat", Value.str "x")]]⟩ := by
  constructor
  · have h := c4_between_and_membership.1 "Data_Movimento_mov" "2024-01-01" "2024-02-28"
      20240101 20240228
      ⟨["Data_Movimento_mov", "Cat"],
        [[("Data_Movimento_mov", Value.date 20240115), ("Cat", Value.str "x")],
         [("Data_Movimento_mov", Value.date 20240310), ("Cat", Value.str "y")],
         [("Data_Movimento_mov", Value.null), ("Cat", Value.str "x")]]⟩
      (by decide) (by decide) (by decide) (by decide)
    exact h.trans (by decide)
  · have h := c4_between_and_membership.2 "Cat" [Json.s "x"] [Value.str "x"]
      ⟨["Data_Movimento_mov", "Cat"],
        [[("Data_Movimento_mov", Value.date 20240115), ("Cat", Value.str "x")],
         [("Data_Movimento_mov", Value.date 20240310), ("Cat", Value.str "y")],
         [("Data_Movimento_mov", Value.null), ("Cat", Value.str "x")]]⟩
      (by decide) (by decide) (by decide) (by decide)
    exact h.trans (by decide)

/-- The character-list order is total. -/
theorem charListLe_total : ∀ u v : List Char, charListLe u v = true ∨ charListLe v u = true := by
  intro u
  induction u with
  | nil => intro v; left; rfl
  | cons c cs ih =>
    intro v
    cases v with
    | nil => right; rfl
    | cons d ds =>
      by_cases h : c.toNat = d.toNat
      · rcases ih ds with h1 | h1
        · left; simp [charListLe, h, h1]
        · right; simp [charListLe, h.symm, h1]
      · by_cases hlt : c.toNat < d.toNat
        · left; simp [charListLe, h, hlt]
        · right
          have hne : ¬ d.toNat = c.toNat := by omega
          have hdl : d.toNat < c.toNat := by omega
          simp [charListLe, hne, hdl]

/-- The character-list order is transitive. -/
theorem charListLe_trans : ∀ u v w : List Char,
    charListLe u v = true → charListLe v w = true → charListLe u w = true := by
  intro u
  induction u with
  | nil => intro v w _ _; rfl
  | cons c cs ih =>
    intro v w h1 h2
    cases v with
    | nil => simp [charListLe] at h1
    | cons d ds =>
      cases w with
      | nil => simp [charListLe] at h2
      | cons e es =>
        by_cases hcd : c.toNat = d.toNat
        · by_cases hde : d.toNat = e.toNat
          · have hce : c.toNat = e.toNat := by omega
            simp only [charListLe, if_pos hcd] at h1
            simp only [charListLe, if_pos hde] at h2
            simp only [charListLe, if_pos hce]
            exact ih ds es h1 h2
          · simp only [charListLe, if_neg hde, decide_eq_true_eq] at h2
            have hce : ¬ c.toNat = e.toNat := by omega
            have hlt : c.toNat < e.toNat := by omega
            simp [charListLe, hce, hlt]
        · simp only [charListLe, if_neg hcd, decide_eq_true_eq] at h1
          by_cases hde : d.toNat = e.toNat
          · have hce : ¬ c.toNat = e.toNat := by omega
            have hlt : c.toNat < e.toNat := by omega
            simp [charListLe, hce, hlt]
          · simp only [charListLe, if_neg hde, decide_eq_true_eq] at h2
            have hce : ¬ c.toNat = e.toNat := by omega
            have hlt : c.toNat < e.toNat := by omega
            simp [charListLe, hce, hlt]

/-- The string order is total. -/
theorem strLeB_total (u v : String) : strLeB u v = true ∨ strLeB v u = true :=
  charListLe_total u.toList v.toList

/-- The string order is transitive. -/
theorem strLeB_trans (u v w : String) (h1 : strLeB u v = true) (h2 : strLeB v w = true) :
    strLeB u w = true :=
  charListLe_trans u.toList v.toList w.toList h1 h2

/-- The cell order is total. -/
theorem valueLeB_total (a b : Value) : a.leB b = true ∨ b.leB a = true := by
  cases a <;> cases b <;>
    simp [Value.leB, Value.tag] <;>
    first
      | omega
      | exact strLeB_total _ _
      | (rename_i x y; cases x <;> cases y <;> simp)

/-- The cell order is transitive. -/
theorem valueLeB_trans (a b c : Value) (h1 : a.leB b = true) (h2 : b.leB c = true) :
    a.leB c = true := by
  cases a <;> cases b <;> cases c <;>
    simp_all [Value.leB, Value.tag] <;>
    first
      | omega
      | exact strLeB_trans _ _ _ h1 h2
      | (rename_i x y z; cases x <;> cases y <;> cases z <;> simp_all)

/-- The row sort relation is total. -/
theorem rowLeProp_total (x : String) (r1 r2 : Row) :
    rowLeProp x r1 r2 ∨ rowLeProp x r2 r1 :=
  valueLeB_total (rowGet r1 x) (rowGet r2 x)

/-- The row sort relation is transitive. -/
theorem rowLeProp_trans (x : String) (r1 r2 r3 : Row)
    (h1 : rowLeProp x r1 r2) (h2 : rowLeProp x r2 r3) : rowLeProp x r1 r3 :=
  valueLeB_trans _ _ _ h1 h2

/-- Bind/some destructuring stated on the monadic bind used by do-notation. -/
theorem optBind_eq_some {α β : Type} (x : Option α) (f : α → Option β) (b : β) :
    (x >>= f) = some b ↔ ∃ a, x = some a ∧ f a = some b := Option.bind_eq_some

/-- A total JSON lookup that returned some value was looking at a dict. -/
theorem jGetOpt_obj (j : Json) (k : String) (v : Json) (h : jGetOpt j k = some v) :
    ∃ entries, j = Json.obj entries := by
  cases j <;> simp_all [jGetOpt]

/-- Deriving the Ano-Mês column makes it one of the table's columns. -/
theorem deriveAnoMes_mem (df df' : DataFrame) (h : deriveAnoMes df = some df') :
    "Ano-Mês" ∈ df'.cols := by
  unfold deriveAnoMes at h
  by_cases hc : "Data_Movimento_mov" ∈ df.cols
  · rw [if_pos hc] at h
    rw [optBind_eq_some] at h
    obtain ⟨rows, hrows, h⟩ := h
    rw [Option.pure_def] at h
    cases h
    by_cases hp : "Ano-Mês" ∈ df.cols <;> simp [hp]
  · rw [if_neg hc] at h
    exact absurd h (by simp)

/-- The grouped-and-aggregated table's columns are the key columns followed
by the aggregation column. -/
theorem groupbyAgg_cols (df df' : DataFrame) (keys : List String) (aggCol aggFunc : String)
    (h : groupbyAgg df keys aggCol aggFunc = some df') :
    df'.cols = keys ++ [aggCol] := by
  unfold groupbyAgg at h
  by_cases hc : (keys.all (fun k => decide (k ∈ df.cols)) && decide (aggCol ∈ df.cols)) = true
  · rw [if_pos hc] at h
    rw [optBind_eq_some] at h
    obtain ⟨rows, hrows, h⟩ := h
    rw [Option.pure_def] at h
    cases h
    rfl
  · rw [if_neg hc] at h
    exact absurd h (by simp)

/-- First-occurrence deduplication preserves membership. -/
theorem dedupFirstAux_mem {α : Type} [DecidableEq α] (a : α) :
    ∀ (l seen : List α), a ∈ l → a ∈ seen ∨ a ∈ dedupFirstAux seen l := by
  intro l
  induction l with
  | nil => intro seen h; cases h
  | cons b rest ih =>
    intro seen h
    rcases List.mem_cons.mp h with hab | hmem
    · subst hab
      by_cases hb : a ∈ seen
      · left; exact hb
      · right
        simp [dedupFirstAux, hb]
    · by_cases hb : b ∈ seen
      · rcases ih seen hmem with hs | hd
        · left; exact hs
        · right; simp [dedupFirstAux, hb, hd]
      · rcases ih (b :: seen) hmem with hs | hd
        · rcases List.mem_cons.mp hs with hab | hs2
          · subst hab
            right
            simp [dedupFirstAux, hb]
          · left; exact hs2
        · right
          simp [dedupFirstAux, hb]
          right
          exact hd

/-- Membership survives dedupFirst. -/
theorem dedupFirst_mem {α : Type} [DecidableEq α] (a : α) (l : List α) (h : a ∈ l) :
    a ∈ dedupFirst l := by
  rcases dedupFirstAux_mem a l [] h with hs | hd
  · cases hs
  · exact hd

/-- A successful string coercion of a list of JSON values sends a string
member to a member of the result. -/
theorem mapM_asStr_mem : ∀ (l : List Json) (l' : List String),
    l.mapM asStr = some l' → ∀ x : String, Json.s x ∈ l → x ∈ l' := by
  intro l
  induction l with
  | nil => intro l' h x hx; cases hx
  | cons j rest ih =>
    intro l' h x hx
    rw [List.mapM_cons, optBind_eq_some] at h
    obtain ⟨st, hst, h⟩ := h
    rw [optBind_eq_some] at h
    obtain ⟨rest', hrest, h⟩ := h
    rw [Option.pure_def] at h
    cases h
    rcases List.mem_cons.mp hx with hj | hmem
    · subst hj
      cases hst
      exact List.mem_cons_self _ _
    · exact List.mem_cons_of_mem _ (ih rest' hrest x hmem)

/-- When the group_by list contains Ano-Mês, the grouping stage's result
table contains the Ano-Mês column. -/
theorem groupStage_anoMes (t plan : Json) (df : DataFrame) (staged : DataFrame × Json)
    (gj : Json) (gb : List Json)
    (hgb : jGetD2 t "group_by" (Json.arr []) = some gj)
    (hgl : asListStrict gj = some gb)
    (hmem : Json.s "Ano-Mês" ∈ gb)
    (h : groupStage t plan df = some staged) :
    "Ano-Mês" ∈ staged.1.cols := by
  unfold groupStage at h
  rw [optBind_eq_some] at h
  obtain ⟨gj', hgj', h⟩ := h
  rw [hgb] at hgj'
  cases hgj'
  rw [optBind_eq_some] at h
  obtain ⟨ai, hai, h⟩ := h
  rw [optBind_eq_some] at h
  obtain ⟨ap, hap, h⟩ := h
  rw [optBind_eq_some] at h
  obtain ⟨cc, hcc, h⟩ := h
  rw [optBind_eq_some] at h
  obtain ⟨gb0, hgb0, h⟩ := h
  rw [hgl] at hgb0
  cases hgb0
  have hmem1 : Json.s "Ano-Mês"
      ∈ (if cc.truthy && decide (cc ∉ gb) then gb ++ [cc] else gb) := by
    by_cases hcond : (cc.truthy && decide (cc ∉ gb)) = true
    · rw [if_pos hcond]
      exact List.mem_append_left _ hmem
    · rw [if_neg hcond]
      exact hmem
  rw [if_pos hmem1] at h
  rw [optBind_eq_some] at h
  obtain ⟨df2, hdf2, h⟩ := h
  have hdf2mem : "Ano-Mês" ∈ df2.cols := deriveAnoMes_mem df df2 hdf2
  dsimp only at h
  by_cases hagg : (!(if (cc.truthy && decide (cc ∉ gb)) = true then gb ++ [cc] else gb).isEmpty
      && ap.1.truthy && ap.2.truthy) = true
  · rw [if_pos hagg] at h
    rw [optBind_eq_some] at h
    obtain ⟨keys, hkeys, h⟩ := h
    rw [optBind_eq_some] at h
    obtain ⟨aggc, haggc, h⟩ := h
    rw [optBind_eq_some] at h
    obtain ⟨aggf, haggf, h⟩ := h
    rw [optBind_eq_some] at h
    obtain ⟨dfA, hdfA, h⟩ := h
    rw [Option.pure_def] at h
    cases h
    have hcols := groupbyAgg_cols df2 dfA keys aggc aggf hdfA
    simp only [hcols]
    apply List.mem_append_left
    exact mapM_asStr_mem _ keys hkeys "Ano-Mês" (dedupFirst_mem _ _ hmem1)
  · rw [if_neg hagg] at h
    rw [optBind_eq_some] at h
    obtain ⟨y, hy, h⟩ := h
    rw [Option.pure_def] at hy
    cases hy
    rw [Option.pure_def] at h
    cases h
    exact hdf2mem

/-- For a bar plan over a table containing the Ano-Mês column, the built
chart has Ano-Mês as its x-axis (whatever the plan's x_axis says) and its
rows are the insertion sort of the table's rows by that column. -/
theorem buildChart_bar_anoMes (plan y : Json) (dfA : DataFrame) (chart : Chart)
    (hobj : ∃ entries, plan = Json.obj entries)
    (hct : jGetD plan "chart_type" = Json.s "bar")
    (hAno : "Ano-Mês" ∈ dfA.cols)
    (h : buildChart plan y dfA = some chart) :
    chart.xAxis = Json.s "Ano-Mês" ∧
      chart.rows = dfA.rows.insertionSort (rowLeProp "Ano-Mês") := by
  obtain ⟨entries, rfl⟩ := hobj
  unfold buildChart at h
  rw [optBind_eq_some] at h
  obtain ⟨ct, hctv, h⟩ := h
  have hcteq : jGetOpt (Json.obj entries) "chart_type"
      = some (jGetD (Json.obj entries) "chart_type") := rfl
  rw [hcteq, hct] at hctv
  cases hctv
  rw [optBind_eq_some] at h
  obtain ⟨ti, hti, h⟩ := h
  rw [optBind_eq_some] at h
  obtain ⟨x0, hx0, h⟩ := h
  rw [optBind_eq_some] at h
  obtain ⟨co, hco, h⟩ := h
  rw [if_pos rfl] at h
  rw [if_pos hAno] at h
  have hsort : sortValues dfA (Json.s "Ano-Mês")
      = some ⟨dfA.cols, dfA.rows.insertionSort (rowLeProp "Ano-Mês")⟩ := by
    simp [sortValues, hAno]
  rw [optBind_eq_some] at h
  obtain ⟨sorted, hsorted, h⟩ := h
  rw [hsort] at hsorted
  cases hsorted
  unfold pxBar at h
  by_cases hv : (validAxis ⟨dfA.cols, dfA.rows.insertionSort (rowLeProp "Ano-Mês")⟩
        (Json.s "Ano-Mês")
      && validAxis ⟨dfA.cols, dfA.rows.insertionSort (rowLeProp "Ano-Mês")⟩ y
      && validAxis ⟨dfA.cols, dfA.rows.insertionSort (rowLeProp "Ano-Mês")⟩ co) = true
  · rw [if_pos hv] at h
    cases h
    exact ⟨rfl, rfl⟩
  · rw [if_neg hv] at h
    exact absurd h (by simp)

/-- Claim C2: for a bar plan whose grouping includes the derived Ano-Mês
column, any produced chart uses Ano-Mês as its x-axis even when the plan's
x_axis names another column, and the chart's rows are sorted ascending by
that column, so year-month categories appear chronologically. -/
theorem c2_ano_mes_bar_sorted (plan : Json) (df : DataFrame) (t gj : Json)
    (gb : List Json) (chart : Chart)
    (hct : jGetD plan "chart_type" = Json.s "bar")
    (ht : jGetOpt plan "data_transformation" = some t)
    (hgb : jGetD2 t "group_by" (Json.arr []) = some gj)
    (hgl : asListStrict gj = some gb)
    (hmem : Json.s "Ano-Mês" ∈ gb)
    (hres : gerar_grafico_plotly plan df = some chart) :
    chart.xAxis = Json.s "Ano-Mês" ∧
      List.Sorted (rowLeProp "Ano-Mês") chart.rows := by
  have hobj := jGetOpt_obj plan "data_transformation" t ht
  unfold gerar_grafico_plotly at hres
  rw [optBind_eq_some] at hres
  obtain ⟨t', ht', hres⟩ := hres
  rw [ht] at ht'
  cases ht'
  by_cases htr : t.truthy = true
  · rw [if_pos htr] at hres
    rw [optBind_eq_some] at hres
    obtain ⟨fj, hfj, hres⟩ := hres
    rw [optBind_eq_some] at hres
    obtain ⟨fl, hfl, hres⟩ := hres
    rw [optBind_eq_some] at hres
    obtain ⟨dff, hdff, hres⟩ := hres
    by_cases he : dff.rows.isEmpty = true
    · rw [if_pos he] at hres
      exact absurd hres (by simp)
    · rw [if_neg he] at hres
      rw [optBind_eq_some] at hres
      obtain ⟨staged, hstaged, hres⟩ := hres
      by_cases he2 : staged.1.rows.isEmpty = true
      · rw [if_pos he2] at hres
        exact absurd hres (by simp)
      · rw [if_neg he2] at hres
        have hAno := groupStage_anoMes t plan dff staged gj gb hgb hgl hmem hstaged
        have hbc := buildChart_bar_anoMes plan staged.2 staged.1 chart hobj hct hAno hres
        refine ⟨hbc.1, ?_⟩
        rw [hbc.2]
        haveI : IsTotal Row (rowLeProp "Ano-Mês") := ⟨rowLeProp_total "Ano-Mês"⟩
        haveI : IsTrans Row (rowLeProp "Ano-Mês") := ⟨rowLeProp_trans "Ano-Mês"⟩
        exact List.sorted_insertionSort (rowLeProp "Ano-Mês") staged.1.rows
  · rw [if_neg htr] at hres
    exact absurd hres (by simp)

/-- Witness for C2: a bar plan grouping by Ano-Mês whose x_axis names the
column Cat still produces a chart with x-axis Ano-Mês, rows in
chronological month order (input rows arrive out of order). -/
theorem c2_ano_mes_bar_sorted_witness :
    gerar_grafico_plotly
      (Json.obj [("chart_type", Json.s "bar"), ("title", Json.s "T"),
        ("x_axis", Json.s "Cat"),
        ("data_transformation", Json.obj [
          ("filters", Json.arr []),
          ("group_by", Json.arr [Json.s "Ano-Mês"]),
          ("aggregation", Json.obj [("Valor", Json.s "sum")])])])
      ⟨["Data_Movimento_mov", "Valor", "Cat"],
        [[("Data_Movimento_mov", Value.date 20240215), ("Valor", Value.int 10),
          ("Cat", Value.str "x")],
         [("Data_Movimento_mov", Value.date 20240105), ("Valor", Value.int 20),
          ("Cat", Value.str "y")],
         [("Data_Movimento_mov", Value.date 20240310), ("Valor", Value.int 30),
          ("Cat", Value.str "x")],
         [("Data_Movimento_mov", Value.date 20240120), ("Valor", Value.int 5),
          ("Cat", Value.str "y")]]⟩
      = some ⟨"bar", Json.s "T", Json.s "Ano-Mês", Json.s "Valor", Json.null, false,
          [[("Ano-Mês", Value.str "2024-01"), ("Valor", Value.int 25)],
           [("Ano-Mês", Value.str "2024-02"), ("Valor", Value.int 10)],
           [("Ano-Mês", Value.str "2024-03"), ("Valor", Value.int 30)]]⟩ ∧
    (⟨"bar", Json.s "T", Json.s "Ano-Mês", Json.s "Valor", Json.null, false,
        [[("Ano-Mês", Value.str "2024-01"), ("Valor", Value.int 25)],
         [("Ano-Mês", Value.str "2024-02"), ("Valor", Value.int 10)],
         [("Ano-Mês", Value.str "2024-03"), ("Valor", Value.int 30)]]⟩ : Chart).xAxis
      = Json.s "Ano-Mês" ∧
    List.Sorted (rowLeProp "Ano-Mês")
      (⟨"bar", Json.s "T", Json.s "Ano-Mês", Json.s "Valor", Json.null, false,
        [[("Ano-Mês", Value.str "2024-01"), ("Valor", Value.int 25)],
         [("Ano-Mês", Value.str "2024-02"), ("Valor", Value.int 10)],
         [("Ano-Mês", Value.str "2024-03"), ("Valor", Value.int 30)]]⟩ : Chart).rows := by
  have hres : gerar_grafico_plotly
      (Json.obj [("chart_type", Json.s "bar"), ("title", Json.s "T"),
        ("x_axis", Json.s "Cat"),
        ("data_transformation", Json.obj [
          ("filters", Json.arr []),
          ("group_by", Json.arr [Json.s "Ano-Mês"]),
          ("aggregation", Json.obj [("Valor", Json.s "sum")])])])
      ⟨["Data_Movimento_mov", "Valor", "Cat"],
        [[("Data_Movimento_mov", Value.date 20240215), ("Valor", Value.int 10),
          ("Cat", Value.str "x")],
         [("Data_Movimento_mov", Value.date 20240105), ("Valor", Value.int 20),
          ("Cat", Value.str "y")],
         [("Data_Movimento_mov", Value.date 20240310), ("Valor", Value.int 30),
          ("Cat", Value.str "x")],
         [("Data_Movimento_mov", Value.date 20240120), ("Valor", Value.int 5),
          ("Cat", Value.str "y")]]⟩
      = some ⟨"bar", Json.s "T", Json.s "Ano-Mês", Json.s "Valor", Json.null, false,
          [[("Ano-Mês", Value.str "2024-01"), ("Valor", Value.int 25)],
           [("Ano-Mês", Value.str "2024-02"), ("Valor", Value.int 10)],
           [("Ano-Mês", Value.str "2024-03"), ("Valor", Value.int 30)]]⟩ := by rfl
  have h := c2_ano_mes_bar_sorted _ _
    (Json.obj [("filters", Json.arr []),
      ("group_by", Json.arr [Json.s "Ano-Mês"]),
      ("aggregation", Json.obj [("Valor", Json.s "sum")])])
    (Json.arr [Json.s "Ano-Mês"]) [Json.s "Ano-Mês"] _
    (by decide) (by decide) (by decide) (by decide) (by decide) hres
  exact ⟨hres, h.1, h.2⟩

/-- Under pairwise-distinct keys, at most one row matches any key value. -/
theorem pairwise_key_filter_le_one (rows : List Row) (k : String)
    (hp : rows.Pairwise (fun a b => rowGet a k ≠ rowGet b k)) (v : Value) :
    (rows.filter (fun rr => decide (rowGet rr k = v))).length ≤ 1 := by
  induction rows with
  | nil => simp
  | cons a rest ih =>
    rw [List.pairwise_cons] at hp
    obtain ⟨ha, hrest⟩ := hp
    by_cases hv : rowGet a k = v
    · have hnil : rest.filter (fun rr => decide (rowGet rr k = v)) = [] := by
        rw [List.filter_eq_nil_iff]
        intro b hb
        simp only [decide_eq_true_eq]
        intro he
        exact ha b hb (by rw [hv, he])
      simp [List.filter_cons, hv, hnil]
    · simp only [List.filter_cons, hv, decide_False]
      simpa using ih hrest

/-- Left-merging against a table with pairwise-distinct keys preserves the
left row count. -/
theorem mergeLeft_length (l r : DataFrame) (k s1 s2 : String)
    (hp : r.rows.Pairwise (fun a b => rowGet a k ≠ rowGet b k)) :
    (mergeLeft l r k s1 s2).rows.length = l.rows.length := by
  unfold mergeLeft
  simp only
  induction l.rows with
  | nil => rfl
  | cons lr rest ih =>
    rw [List.flatMap_cons, List.length_append, ih, List.length_cons]
    have hone : (let ms := r.rows.filter (fun rr => rowGet rr k = rowGet lr k)
        if ms.isEmpty then [mergePadRow l r k s1 s2 lr]
        else ms.map (mergeJoinRow l r k s1 s2 lr)).length = 1 := by
      simp only
      cases he : (r.rows.filter (fun rr => rowGet rr k = rowGet lr k)).isEmpty with
      | true => simp [he]
      | false =>
        simp only [he, if_false, List.length_map, Bool.false_eq_true]
        have hle : (r.rows.filter (fun rr => decide (rowGet rr k = rowGet lr k))).length ≤ 1 :=
          pairwise_key_filter_le_one r.rows k hp (rowGet lr k)
        have hne : (r.rows.filter (fun rr => rowGet rr k = rowGet lr k)).length ≠ 0 := by
          intro h0
          rw [List.length_eq_zero] at h0
          rw [h0] at he
          simp at he
        omega
    rw [hone]
    omega

/-- Renaming one column label leaves lookups of other labels unchanged. -/
theorem rowGet_renameRowKey (old new k : String) (r : Row)
    (h1 : k ≠ old) (h2 : k ≠ new) :
    rowGet (renameRowKey old new r) k = rowGet r k := by
  induction r with
  | nil => rfl
  | cons kv rest ih =>
    obtain ⟨k', v⟩ := kv
    by_cases hko : k' = old
    · have hnk : ¬ new = k := fun h => h2 h.symm
      have hok : ¬ k' = k := by
        rw [hko]
        exact fun h => h1 h.symm
      simp only [renameRowKey, List.map_cons] at *
      rw [if_pos hko]
      simp only [rowGet, if_neg hnk, if_neg hok]
      exact ih
    · simp only [renameRowKey, List.map_cons] at *
      rw [if_neg hko]
      simp only [rowGet]
      by_cases hkk : k' = k
      · rw [if_pos hkk, if_pos hkk]
      · rw [if_neg hkk, if_neg hkk]
        exact ih

/-- Distinctness of a key column survives the classification rename. -/
theorem pairwise_renameColumn (df : DataFrame) (old new k : String)
    (h1 : k ≠ old) (h2 : k ≠ new)
    (hp : df.rows.Pairwise (fun a b => rowGet a k ≠ rowGet b k)) :
    (renameColumn df old new).rows.Pairwise (fun a b => rowGet a k ≠ rowGet b k) := by
  unfold renameColumn
  simp only
  rw [List.pairwise_map]
  apply hp.imp
  intro a b hab
  rw [rowGet_renameRowKey old new k a h1 h2, rowGet_renameRowKey old new k b h1 h2]
  exact hab

/-- Claim C1 counterexample: with a duplicated account id in the accounts
table, the merged table has two rows for a single movement, so the claim's
row-count equality fails for that set of loaded tables. -/
theorem c1_counterexample :
    (get_data ⟨["ID_Parceiro", "Parceiro"], []⟩ ⟨["ID_Cliente", "Nome"], []⟩
        ⟨["ID_Conta", "Agencia"],
          [[("ID_Conta", Value.int 1), ("Agencia", Value.str "A")],
           [("ID_Conta", Value.int 1), ("Agencia", Value.str "B")]]⟩
        ⟨["ID_Conta", "ID_Cliente", "ID_Parceiro", "Data_Movimento", "Valor"],
          [[("ID_Conta", Value.int 1), ("ID_Cliente", Value.int 7),
            ("ID_Parceiro", Value.int 3), ("Data_Movimento", Value.str "2024-02-15"),
            ("Valor", Value.int 10)]]⟩
        ⟨["ID_Conta", "Data_Ultimo_Movimento"], []⟩).rows.length = 2 ∧
    (⟨["ID_Conta", "ID_Cliente", "ID_Parceiro", "Data_Movimento", "Valor"],
        [[("ID_Conta", Value.int 1), ("ID_Cliente", Value.int 7),
          ("ID_Parceiro", Value.int 3), ("Data_Movimento", Value.str "2024-02-15"),
          ("Valor", Value.int 10)]]⟩ : DataFrame).rows.length = 1 ∧
    ¬ (get_data ⟨["ID_Parceiro", "Parceiro"], []⟩ ⟨["ID_Cliente", "Nome"], []⟩
        ⟨["ID_Conta", "Agencia"],
          [[("ID_Conta", Value.int 1), ("Agencia", Value.str "A")],
           [("ID_Conta", Value.int 1), ("Agencia", Value.str "B")]]⟩
        ⟨["ID_Conta", "ID_Cliente", "ID_Parceiro", "Data_Movimento", "Valor"],
          [[("ID_Conta", Value.int 1), ("ID_Cliente", Value.int 7),
            ("ID_Parceiro", Value.int 3), ("Data_Movimento", Value.str "2024-02-15"),
            ("Valor", Value.int 10)]]⟩
        ⟨["ID_Conta", "Data_Ultimo_Movimento"], []⟩).rows.length
      = (⟨["ID_Conta", "ID_Cliente", "ID_Parceiro", "Data_Movimento", "Valor"],
          [[("ID_Conta", Value.int 1), ("ID_Cliente", Value.int 7),
            ("ID_Parceiro", Value.int 3), ("Data_Movimento", Value.str "2024-02-15"),
            ("Valor", Value.int 10)]]⟩ : DataFrame).rows.length := by
  refine ⟨rfl, rfl, fun h => ?_⟩
  have h2 : (get_data ⟨["ID_Parceiro", "Parceiro"], []⟩ ⟨["ID_Cliente", "Nome"], []⟩
      ⟨["ID_Conta", "Agencia"],
        [[("ID_Conta", Value.int 1), ("Agencia", Value.str "A")],
         [("ID_Conta", Value.int 1), ("Agencia", Value.str "B")]]⟩
      ⟨["ID_Conta", "ID_Cliente", "ID_Parceiro", "Data_Movimento", "Valor"],
        [[("ID_Conta", Value.int 1), ("ID_Cliente", Value.int 7),
          ("ID_Parceiro", Value.int 3), ("Data_Movimento", Value.str "2024-02-15"),
          ("Valor", Value.int 10)]]⟩
      ⟨["ID_Conta", "Data_Ultimo_Movimento"], []⟩).rows.length = 2 := rfl
  rw [h2] at h
  simp at h

/-- Lookup skips a prefix none of whose labels match. -/
theorem rowGet_append_right (xs ys : Row) (c : String)
    (h : ∀ kv ∈ xs, kv.1 ≠ c) :
    rowGet (xs ++ ys) c = rowGet ys c := by
  induction xs with
  | nil => rfl
  | cons kv rest ih =>
    obtain ⟨k, v⟩ := kv
    have hk : k ≠ c := h (k, v) (List.mem_cons_self _ _)
    simp only [List.cons_append, rowGet, if_neg hk]
    exact ih (fun p hp => h p (List.mem_cons_of_mem _ hp))

/-- Every label of the overlap set is a column of the left table. -/
theorem mergeOverlap_subset_left (l r : DataFrame) (k : String) (c : String)
    (h : c ∈ mergeOverlap l r k) : c ∈ l.cols := by
  unfold mergeOverlap at h
  exact List.mem_of_mem_filter h

/-- In the null-padded right section, the looked-up cell of any right
column is null, provided the suffixing introduces no label collision. -/
theorem padSection_null (l r : DataFrame) (k s2 : String) (c : String) :
    ∀ cols' : List String, c ∈ cols' → c ∉ mergeOverlap l r k →
    (∀ c'' ∈ cols', c'' ∈ mergeOverlap l r k → c'' ++ s2 ≠ c) →
    rowGet (cols'.map
      (fun c' => (if c' ∈ mergeOverlap l r k then c' ++ s2 else c', Value.null))) c
      = Value.null := by
  intro cols'
  induction cols' with
  | nil => intro h _ _; cases h
  | cons c'' rest ih =>
    intro hmem hco hsuf
    by_cases hov : c'' ∈ mergeOverlap l r k
    · have hne : c'' ++ s2 ≠ c := hsuf c'' (List.mem_cons_self _ _) hov
      simp only [List.map_cons, rowGet, if_pos hov, if_neg hne]
      have hmem2 : c ∈ rest := by
        rcases List.mem_cons.mp hmem with he | hm
        · exact absurd (he ▸ hov) hco
        · exact hm
      exact ih hmem2 hco (fun x hx => hsuf x (List.mem_cons_of_mem _ hx))
    · by_cases hce : c'' = c
      · simp only [List.map_cons, rowGet, if_neg hov, if_pos hce]
      · simp only [List.map_cons, rowGet, if_neg hov, if_neg hce]
        have hmem2 : c ∈ rest := by
          rcases List.mem_cons.mp hmem with he | hm
          · exact absurd he.symm hce
          · exact hm
        exact ih hmem2 hco (fun x hx => hsuf x (List.mem_cons_of_mem _ hx))

/-- Claim C1, amended: when each dimension table has pairwise-distinct join
keys, the full merge chain of get_data has exactly as many rows as the
movements table; and in any single left-merge, a left row with no key match
still appears, joined with the right table's non-key columns, and (absent
suffix-induced label collisions) carries null in each right-only column. -/
theorem c1_left_join_preservation :
    (∀ parceiros clientes contas movimentos classificacao : DataFrame,
      contas.rows.Pairwise (fun a b => rowGet a "ID_Conta" ≠ rowGet b "ID_Conta") →
      clientes.rows.Pairwise (fun a b => rowGet a "ID_Cliente" ≠ rowGet b "ID_Cliente") →
      classificacao.rows.Pairwise (fun a b => rowGet a "ID_Conta" ≠ rowGet b "ID_Conta") →
      parceiros.rows.Pairwise (fun a b => rowGet a "ID_Parceiro" ≠ rowGet b "ID_Parceiro") →
      (get_data parceiros clientes contas movimentos classificacao).rows.length
        = movimentos.rows.length) ∧
    (∀ (l r : DataFrame) (k s1 s2 : String) (lr : Row),
      lr ∈ l.rows → (∀ rr ∈ r.rows, rowGet rr k ≠ rowGet lr k) →
      mergePadRow l r k s1 s2 lr ∈ (mergeLeft l r k s1 s2).rows ∧
      (∀ c ∈ r.cols, c ≠ k → c ∉ l.cols → (∀ kv ∈ lr, kv.1 ∈ l.cols) →
        (∀ c' ∈ l.cols, c' ++ s1 ≠ c) → (∀ c' ∈ l.cols, c' ++ s2 ≠ c) →
        rowGet (mergePadRow l r k s1 s2 lr) c = Value.null)) := by
  constructor
  · intro parceiros clientes contas movimentos classificacao hContas hCli hClass hPar
    have hcl' := pairwise_renameColumn classificacao "Data_Ultimo_Movimento"
      "Data_Movimento" "ID_Conta" (by decide) (by decide) hClass
    unfold get_data
    simp only [List.length_map]
    rw [mergeLeft_length _ _ _ _ _ hPar, mergeLeft_length _ _ _ _ _ hcl',
      mergeLeft_length _ _ _ _ _ hCli, mergeLeft_length _ _ _ _ _ hContas]
  · intro l r k s1 s2 lr hmem hno
    have hms : r.rows.filter (fun rr => decide (rowGet rr k = rowGet lr k)) = [] := by
      rw [List.filter_eq_nil_iff]
      intro rr hrr
      simp only [decide_eq_true_eq]
      exact hno rr hrr
    constructor
    · unfold mergeLeft
      simp only
      rw [List.mem_flatMap]
      refine ⟨lr, hmem, ?_⟩
      simp [hms]
    · intro c hcr hck hcl hlr hsuf1 hsuf2
      unfold mergePadRow
      rw [rowGet_append_right]
      · apply padSection_null
        · rw [List.mem_filter]
          exact ⟨hcr, by simpa using hck⟩
        · exact fun hov => hcl (mergeOverlap_subset_left l r k c hov)
        · intro c'' _ hov
          exact hsuf2 c'' (mergeOverlap_subset_left l r k c'' hov)
      · intro kv hkv
        unfold mergeRenameLeft at hkv
        rw [List.mem_map] at hkv
        obtain ⟨kv0, hkv0, hkveq⟩ := hkv
        have hmem0 : kv0.1 ∈ l.cols := hlr kv0 hkv0
        by_cases hov : kv0.1 ∈ mergeOverlap l r k
        · rw [← hkveq]
          simp only [if_pos hov]
          exact hsuf1 kv0.1 hmem0
        · rw [← hkveq]
          simp only [if_neg hov]
          exact fun he => hcl (he ▸ hmem0)

/-- Witness for C1: with unique dimension keys and a movement row whose
account id 2 matches no account, the merge keeps both movement rows and
the unmatched merge row carries null in the right-only column. -/
theorem c1_left_join_preservation_witness :
    (get_data ⟨["ID_Parceiro", "Parceiro"],
        [[("ID_Parceiro", Value.int 3), ("Parceiro", Value.str "P")]]⟩
      ⟨["ID_Cliente", "Nome"], [[("ID_Cliente", Value.int 7), ("Nome", Value.str "N")]]⟩
      ⟨["ID_Conta", "Agencia"], [[("ID_Conta", Value.int 1), ("Agencia", Value.str "A")]]⟩
      ⟨["ID_Conta", "ID_Cliente", "ID_Parceiro", "Valor"],
        [[("ID_Conta", Value.int 1), ("ID_Cliente", Value.int 7),
          ("ID_Parceiro", Value.int 3), ("Valor", Value.int 10)],
         [("ID_Conta", Value.int 2), ("ID_Cliente", Value.int 7),
          ("ID_Parceiro", Value.int 3), ("Valor", Value.int 20)]]⟩
      ⟨["ID_Conta", "Data_Ultimo_Movimento"],
        [[("ID_Conta", Value.int 1),
          ("Data_Ultimo_Movimento", Value.str "2024-01-01")]]⟩).rows.length = 2 ∧
    mergePadRow ⟨["ID_Conta", "Valor"], [[("ID_Conta", Value.int 2), ("Valor", Value.int 20)]]⟩
        ⟨["ID_Conta", "Agencia"], [[("ID_Conta", Value.int 1), ("Agencia", Value.str "A")]]⟩
        "ID_Conta" "_x" "_y" [("ID_Conta", Value.int 2), ("Valor", Value.int 20)]
      ∈ (mergeLeft ⟨["ID_Conta", "Valor"],
            [[("ID_Conta", Value.int 2), ("Valor", Value.int 20)]]⟩
          ⟨["ID_Conta", "Agencia"], [[("ID_Conta", Value.int 1), ("Agencia", Value.str "A")]]⟩
          "ID_Conta" "_x" "_y").rows ∧
    rowGet (mergePadRow ⟨["ID_Conta", "Valor"],
          [[("ID_Conta", Value.int 2), ("Valor", Value.int 20)]]⟩
        ⟨["ID_Conta", "Agencia"], [[("ID_Conta", Value.int 1), ("Agencia", Value.str "A")]]⟩
        "ID_Conta" "_x" "_y" [("ID_Conta", Value.int 2), ("Valor", Value.int 20)]) "Agencia"
      = Value.null := by
  refine ⟨?_, ?_, ?_⟩
  · exact c1_left_join_preservation.1 _ _ _ _ _ (by decide) (by decide) (by decide) (by decide)
  · exact (c1_left_join_preservation.2 _ _ "ID_Conta" "_x" "_y" _
      (by decide) (by decide)).1
  · exact (c1_left_join_preservation.2 _ _ "ID_Conta" "_x" "_y" _
      (by decide) (by decide)).2 "Agencia" (by decide) (by decide) (by decide)
      (by decide) (by decide) (by decide)
